import Mathlib

/-!
CBM 2031 emulator: the VIA peripheral (`via.go`), the IEEE-488 signals and cable
(`ieee.go`), the drive connector (`cbm2031.go`) and the host connector with its bus master
(`monitor.go`).

A shallow embedding of the VIA register file of `via.go` and of the bus around it.  A Go `Byte` (uint8) and a Go
`Word` (uint16) are natural numbers; every operation that can leave the machine range is
reduced explicitly.  Methods with a pointer receiver become functions that return the new
state (and the returned byte, when the method returns one).
-/

namespace CBM2031

/-! ## Machine bytes -/

/-- Go's unary `^x` on a `Byte`: the bitwise complement within eight bits. -/
def bnot (x : Nat) : Nat := (x ^^^ 0xFF) % 256

/-- Modelled from the spec: `mos6502.BIT_6` comes from the imported CPU package, which is
not part of the sources; the spec calls it "ACR bit 6". -/
abbrev BIT_6 : Nat := 1 <<< 6

/-! ## The VIA state (`type VIA struct`) -/

structure VIA where
  Base : Nat
  portB : Nat
  portBOut : Nat
  portBDir : Nat
  portA : Nat
  portAOut : Nat
  portADir : Nat
  timer1Low : Nat
  timer1High : Nat
  timer1LatchLow : Nat
  timer1LatchHigh : Nat
  timer1Counter : Nat
  acr : Nat
  pcr : Nat
  ifr : Nat
  ie : Nat
  ca1 : Bool
  ca2 : Bool
  cb1 : Bool
  cb2 : Bool
deriving DecidableEq, Repr

/-- The zero value of the Go struct, mapped at `base`. -/
def VIA.zero (base : Nat) : VIA :=
  { Base := base, portB := 0, portBOut := 0, portBDir := 0, portA := 0, portAOut := 0,
    portADir := 0, timer1Low := 0, timer1High := 0, timer1LatchLow := 0,
    timer1LatchHigh := 0, timer1Counter := 0, acr := 0, pcr := 0, ifr := 0, ie := 0,
    ca1 := false, ca2 := false, cb1 := false, cb2 := false }

/-- Every field is inside the range of its Go type. -/
def VIA.WF (v : VIA) : Prop :=
  v.Base < 65536 ∧ v.portB < 256 ∧ v.portBOut < 256 ∧ v.portBDir < 256 ∧ v.portA < 256 ∧
  v.portAOut < 256 ∧ v.portADir < 256 ∧ v.timer1Low < 256 ∧ v.timer1High < 256 ∧
  v.timer1LatchLow < 256 ∧ v.timer1LatchHigh < 256 ∧ v.timer1Counter < 65536 ∧
  v.acr < 256 ∧ v.pcr < 256 ∧ v.ifr < 256 ∧ v.ie < 256

instance (v : VIA) : Decidable v.WF := by
  unfold VIA.WF; infer_instance

/-! ## Interrupt bits -/

abbrev INT_CA2 : Nat := 1 <<< 0
abbrev INT_CA1 : Nat := 1 <<< 1
abbrev INT_CB2 : Nat := 1 <<< 3
abbrev INT_CB1 : Nat := 1 <<< 4
abbrev INT_T2 : Nat := 1 <<< 5
abbrev INT_T1 : Nat := 1 <<< 6
abbrev INT_IRQ : Nat := 1 <<< 7

/-! ## VIA registers -/

abbrev PORT_B : Nat := 0x0
abbrev PORT_A : Nat := 0x1
abbrev PORT_B_DIR : Nat := 0x2
abbrev PORT_A_DIR : Nat := 0x3
abbrev TIMER_1_LOW : Nat := 0x4
abbrev TIMER_1_HIGH : Nat := 0x5
abbrev TIMER_1_LATCH_LOW : Nat := 0x6
abbrev TIMER_1_LATCH_HIGH : Nat := 0x7
abbrev TIMER_2_LOW : Nat := 0x8
abbrev TIMER_2_HIGH : Nat := 0x9
abbrev AUXILLERY_CTRL : Nat := 0xb
abbrev PERIPHERAL_CTRL : Nat := 0xc
abbrev INT_FLAGS : Nat := 0xd
abbrev INT_ENABLE : Nat := 0xe

/-! ## Control lines and Peripheral Control Register bits -/

abbrev CTRL_CA1 : Nat := 0
abbrev CTRL_CA2 : Nat := 1
abbrev CTRL_CB1 : Nat := 2
abbrev CTRL_CB2 : Nat := 3

abbrev PCR_CA1_CTRL : Nat := 1 <<< 0
abbrev PCR_CA2_1 : Nat := 1 <<< 1
abbrev PCR_CA2_2 : Nat := 1 <<< 2
abbrev PCR_CA2_3 : Nat := 1 <<< 3
abbrev PCR_CA2_CTRL : Nat := 0x0e
abbrev PCR_CB1_CTRL : Nat := 1 <<< 4
abbrev PCR_CB2_1 : Nat := 1 <<< 5
abbrev PCR_CB2_2 : Nat := 1 <<< 6
abbrev PCR_CB2_3 : Nat := 1 <<< 7
abbrev PCR_CB2_CTRL : Nat := 0xe0

/-! ## Interrupt flag handling -/

def GetBase (v : VIA) : Nat := v.Base

def GetSize (_v : VIA) : Nat := 16

def CheckInterrupt (v : VIA) : Bool := (v.ifr &&& 0x80) != 0

/-- The value `setOrClearIRQ` leaves in IFR, as a function of the old IFR and of IE. -/
def irqOf (ifr ie : Nat) : Nat :=
  if (ifr &&& 0x7f) &&& (ie &&& 0x7f) = 0 then ifr &&& 0x7f else ifr ||| INT_IRQ

def setOrClearIRQ (v : VIA) : VIA :=
  let irq := (v.ifr &&& 0x7f) &&& (v.ie &&& 0x7f)
  if irq = 0 then
    { v with ifr := v.ifr &&& 0x7f }
  else
    { v with ifr := v.ifr ||| INT_IRQ }

def setInterrupt (v : VIA) (i : Nat) : VIA :=
  setOrClearIRQ { v with ifr := v.ifr ||| i }

def clearInterrupt (v : VIA) (i : Nat) : VIA :=
  setOrClearIRQ { v with ifr := v.ifr &&& bnot i }

/-! ## Timer 1 -/

def setTimer1Counter (v : VIA) : VIA :=
  { v with timer1Counter := ((v.timer1LatchHigh <<< 8) % 65536) ||| v.timer1LatchLow }

def Clock (v : VIA) : VIA :=
  let t1start := v.timer1Counter
  let v1 := if v.timer1Counter > 0 then { v with timer1Counter := v.timer1Counter - 1 } else v
  if t1start > 0 ∧ v1.timer1Counter = 0 then
    let v2 := setInterrupt v1 INT_T1
    if v2.acr &&& BIT_6 ≠ 0 then setTimer1Counter v2 else v2
  else
    v1

/-- The state after `n` calls of `Clock`. -/
def clockN : Nat → VIA → VIA
  | 0, v => v
  | n + 1, v => clockN n (Clock v)

/-! ## CPU-side register access -/

def ReadRegister (v : VIA) (r : Nat) : VIA × Nat :=
  if r = PORT_B then
    let v1 := clearInterrupt v INT_CB1
    let v2 := if v1.pcr &&& PCR_CB2_1 = 0 then clearInterrupt v1 INT_CB2 else v1
    (v2, v2.portB)
  else if r = PORT_A then
    let v1 := clearInterrupt v INT_CA1
    let v2 := if v1.pcr &&& PCR_CA2_1 = 0 then clearInterrupt v1 INT_CA2 else v1
    (v2, v2.portA)
  else if r = PORT_B_DIR then (v, v.portBDir)
  else if r = PORT_A_DIR then (v, v.portADir)
  else if r = TIMER_1_LOW then
    let v1 := clearInterrupt v INT_T1
    (v1, v1.timer1Low)
  else if r = TIMER_1_HIGH then (v, v.timer1High)
  else if r = TIMER_1_LATCH_LOW then (v, v.timer1LatchLow)
  else if r = TIMER_1_LATCH_HIGH then (v, v.timer1LatchHigh)
  else if r = AUXILLERY_CTRL then (v, v.acr)
  else if r = PERIPHERAL_CTRL then (v, v.pcr)
  else if r = INT_FLAGS then (v, v.ifr)
  else if r = INT_ENABLE then (v, v.ie)
  else (v, 0)

def PeekRegister (v : VIA) (r : Nat) : Nat :=
  if r = PORT_B then v.portB
  else if r = PORT_B_DIR then v.portBDir
  else if r = PORT_A then v.portA
  else if r = PORT_A_DIR then v.portADir
  else if r = TIMER_1_LOW then v.timer1Low
  else if r = TIMER_1_HIGH then v.timer1High
  else if r = AUXILLERY_CTRL then v.acr
  else if r = PERIPHERAL_CTRL then v.pcr
  else if r = INT_FLAGS then v.ifr
  else if r = INT_ENABLE then v.ie
  else 0

/-- The `INT_FLAGS` case of `WriteRegister`: four successive tests of `data`. -/
def writeIntFlags (v : VIA) (data : Nat) : VIA :=
  let v1 := if data &&& INT_CA2 ≠ 0 then clearInterrupt v INT_CA2 else v
  let v2 := if data &&& INT_CA1 ≠ 0 then clearInterrupt v1 INT_CA1 else v1
  let v3 := if data &&& INT_CB2 ≠ 0 then clearInterrupt v2 INT_CB2 else v2
  if data &&& INT_CB1 ≠ 0 then clearInterrupt v3 INT_CB1 else v3

def WriteRegister (v : VIA) (r : Nat) (data : Nat) : VIA :=
  if r = PORT_B then
    let v1 := clearInterrupt { v with portB := data } INT_CB1
    let v2 := if v1.pcr &&& PCR_CB2_1 = 0 then clearInterrupt v1 INT_CB2 else v1
    { v2 with portBOut := v2.portB &&& v2.portBDir }
  else if r = PORT_B_DIR then { v with portBDir := data }
  else if r = PORT_A then
    let v1 := clearInterrupt { v with portA := data } INT_CA1
    let v2 := if v1.pcr &&& PCR_CA2_1 = 0 then clearInterrupt v1 INT_CA2 else v1
    { v2 with portAOut := v2.portA &&& v2.portADir }
  else if r = PORT_A_DIR then { v with portADir := data }
  else if r = TIMER_1_LOW then { v with timer1Low := data, timer1LatchLow := data }
  else if r = TIMER_1_HIGH then
    let v1 := { v with timer1High := data, timer1LatchHigh := data,
                       timer1Low := v.timer1LatchLow }
    setTimer1Counter (clearInterrupt v1 INT_T1)
  else if r = TIMER_1_LATCH_LOW then { v with timer1LatchLow := data }
  else if r = TIMER_1_LATCH_HIGH then
    clearInterrupt { v with timer1LatchHigh := data } INT_T1
  else if r = AUXILLERY_CTRL then { v with acr := data }
  else if r = PERIPHERAL_CTRL then { v with pcr := data }
  else if r = INT_FLAGS then writeIntFlags v data
  else if r = INT_ENABLE then
    if data &&& 0x80 = 0 then
      { v with ie := (bnot v.ie ||| bnot data) &&& 0x7f }
    else
      { v with ie := (v.ie ||| data) &&& 0x7f }
  else v

/-- The register index of a bus address: `Byte(addr - v.Base)` on 16-bit words. -/
def regOf (v : VIA) (addr : Nat) : Nat := ((addr + 65536 - v.Base % 65536) % 65536) % 256

def Read (v : VIA) (addr : Nat) : VIA × Nat := ReadRegister v (regOf v addr)

def Write (v : VIA) (addr : Nat) (data : Nat) : VIA := WriteRegister v (regOf v addr) data

/-! ## GPIO-side port access -/

def Out (v : VIA) (r : Nat) : Nat :=
  if r = PORT_A then v.portAOut
  else if r = PORT_B then v.portBOut
  else 0

def In (v : VIA) (r : Nat) (data : Nat) : VIA :=
  if r = PORT_A then
    let (v1, dir) := ReadRegister v PORT_A_DIR
    let inp := data &&& bnot dir
    let portA := v1.portA &&& dir
    { v1 with portA := inp ||| portA }
  else if r = PORT_B then
    let (v1, dir) := ReadRegister v PORT_B_DIR
    let inp := data &&& bnot dir
    let portB := v1.portB &&& dir
    { v1 with portB := inp ||| portB }
  else v

/-! ## Control lines -/

def ctrlInSet (v : VIA) (c : Nat) : VIA :=
  if c = CTRL_CA1 then setInterrupt v INT_CA1
  else if c = CTRL_CA2 then setInterrupt v INT_CA2
  else if c = CTRL_CB1 then setInterrupt v INT_CB1
  else if c = CTRL_CB2 then setInterrupt v INT_CB2
  else v

abbrev LO_TO_HI : Nat := 0
abbrev HI_TO_LO : Nat := 1

/-- The first `switch` of `CtrlIn`: `none` is the early return for a CA2/CB2 line in
output mode, `some t` the stored level of the line (`false` for an unknown line). -/
def ctrlCurrent (v : VIA) (c : Nat) : Option Bool :=
  if c = CTRL_CA1 then some v.ca1
  else if c = CTRL_CA2 then
    let ca2_ctrl := PeekRegister v PERIPHERAL_CTRL &&& PCR_CA2_CTRL
    if ca2_ctrl &&& PCR_CA2_3 ≠ 0 then none else some v.ca2
  else if c = CTRL_CB1 then some v.cb1
  else if c = CTRL_CB2 then
    let cb2_ctrl := PeekRegister v PERIPHERAL_CTRL &&& PCR_CB2_CTRL
    if cb2_ctrl &&& PCR_CB2_3 ≠ 0 then none else some v.cb2
  else some false

/-- The two polarity tests shared by every case of the second `switch` of `CtrlIn`:
`mask` is the PCR bit that the source compares with `0` and with `1`. -/
def ctrlEdge (v : VIA) (c : Nat) (mask : Nat) (transition : Nat) : VIA :=
  let v1 := if v.pcr &&& mask = 0 ∧ transition = HI_TO_LO then ctrlInSet v c else v
  if v1.pcr &&& mask = 1 ∧ transition = LO_TO_HI then ctrlInSet v1 c else v1

def CtrlIn (v : VIA) (c : Nat) (ttl : Bool) : VIA :=
  match ctrlCurrent v c with
  | none => v
  | some currentTTL =>
    if ttl = currentTTL then v
    else
      let transition := if ttl = true then LO_TO_HI else HI_TO_LO
      if c = CTRL_CA1 then
        { ctrlEdge v c PCR_CA1_CTRL transition with ca1 := ttl }
      else if c = CTRL_CA2 then
        if v.pcr &&& PCR_CA2_3 = 0 then
          { ctrlEdge v c PCR_CA2_2 transition with ca2 := ttl }
        else v
      else if c = CTRL_CB1 then
        { ctrlEdge v c PCR_CB1_CTRL transition with cb1 := ttl }
      else if c = CTRL_CB2 then
        if v.pcr &&& PCR_CB2_3 = 0 then
          { ctrlEdge v c PCR_CB2_2 transition with cb2 := ttl }
        else v
      else v

def CtrlOut (v : VIA) (c : Nat) : Bool :=
  if c = CTRL_CA2 then
    if v.pcr &&& PCR_CA2_3 ≠ 0 then (v.pcr &&& PCR_CA2_1) != 0 else false
  else if c = CTRL_CB2 then
    if v.pcr &&& PCR_CB2_3 ≠ 0 then (v.pcr &&& PCR_CB2_1) != 0 else false
  else false

def CtrlPeek (v : VIA) (c : Nat) : Bool :=
  if c = CTRL_CA1 then v.ca1
  else if c = CTRL_CA2 then v.ca2
  else if c = CTRL_CB1 then v.cb1
  else if c = CTRL_CB2 then v.cb2
  else false

/-! ## Sequences of operations on a VIA -/

/-- One call on the VIA: a CPU-side register write or read, a GPIO-side `In`, a
control-line input, or a clock tick. -/
inductive Op where
  | write (r : Nat) (data : Nat)
  | read (r : Nat)
  | input (r : Nat) (data : Nat)
  | ctrl (c : Nat) (ttl : Bool)
  | tick
deriving DecidableEq, Repr

/-- The arguments of a call are bytes. -/
def Op.WF : Op → Prop
  | .write r data => r < 256 ∧ data < 256
  | .read r => r < 256
  | .input r data => r < 256 ∧ data < 256
  | .ctrl c _ => c < 256
  | .tick => True

def step (v : VIA) : Op → VIA
  | .write r data => WriteRegister v r data
  | .read r => (ReadRegister v r).1
  | .input r data => In v r data
  | .ctrl c ttl => CtrlIn v c ttl
  | .tick => Clock v

/-- The state after a sequence of calls, first call first. -/
def run (v : VIA) (ops : List Op) : VIA := ops.foldl step v

/-- The IRQ aggregation invariant: IFR bit 7 is set exactly when an enabled flag is up. -/
def IRQInv (v : VIA) : Prop := (v.ifr &&& 0x80 ≠ 0) ↔ (v.ifr &&& v.ie &&& 0x7f ≠ 0)

instance (v : VIA) : Decidable (IRQInv v) := by
  unfold IRQInv; infer_instance

/-- The masked-output invariant: each cached output equals latch AND direction. -/
def OutInv (v : VIA) : Prop :=
  Out v PORT_A = v.portA &&& v.portADir ∧ Out v PORT_B = v.portB &&& v.portBDir

instance (v : VIA) : Decidable (OutInv v) := by
  unfold OutInv; infer_instance

/-! ## IEEE-488 signals and the cable state (`ieee.go`) -/

/-- The three constants of `type IEEEBool int`: `TRUE` is 0 V (asserted), `FALSE` is 5 V
(negated), `FLOATING` is a line nobody drives. -/
inductive IEEEBool where
  | TRUE
  | FALSE
  | FLOATING
deriving DecidableEq, Repr

/-- The integer behind each constant: the literal voltage, or -1 for a floating line. -/
def IEEEBool.volts : IEEEBool → Int
  | .TRUE => 0
  | .FALSE => 5
  | .FLOATING => -1

def IEEEBool.ToBool (i : IEEEBool) : Bool :=
  if i = .TRUE then true else false

def IEEEBool.ToTTL (i : IEEEBool) : Bool :=
  if i = .FALSE then true else false

def IEEEBoolFromBool (b : Bool) : IEEEBool :=
  if b then .TRUE else .FALSE

structure IEEE488 where
  DAV : IEEEBool
  EOI : IEEEBool
  NDAC : IEEEBool
  NRFD : IEEEBool
  SRQ : IEEEBool
  ATN : IEEEBool
  REN : IEEEBool
  IFC : IEEEBool
  DIO : Nat
deriving DecidableEq, Repr

def IEEE488.Or (i o : IEEE488) : IEEE488 :=
  { DAV := if i.DAV = .TRUE ∨ o.DAV = .TRUE then .TRUE else .FALSE,
    EOI := if i.EOI = .TRUE ∨ o.EOI = .TRUE then .TRUE else .FALSE,
    NDAC := if i.NDAC = .TRUE ∨ o.NDAC = .TRUE then .TRUE else .FALSE,
    NRFD := if i.NRFD = .TRUE ∨ o.NRFD = .TRUE then .TRUE else .FALSE,
    SRQ := if i.SRQ = .TRUE ∨ o.SRQ = .TRUE then .TRUE else .FALSE,
    ATN := if i.ATN = .TRUE ∨ o.ATN = .TRUE then .TRUE else .FALSE,
    REN := if i.REN = .TRUE ∨ o.REN = .TRUE then .TRUE else .FALSE,
    IFC := if i.IFC = .TRUE ∨ o.IFC = .TRUE then .TRUE else .FALSE,
    DIO := i.DIO ||| o.DIO }

def MakeIEEE488 : IEEE488 :=
  { DAV := .FALSE, EOI := .FALSE, NDAC := .FALSE, NRFD := .FALSE, SRQ := .FALSE,
    ATN := .FALSE, REN := .FALSE, IFC := .FALSE, DIO := 0 }

/-- The eight signal lines of a cable state, as accessors. -/
def IEEE488.lines : List (IEEE488 → IEEEBool) :=
  [IEEE488.DAV, IEEE488.EOI, IEEE488.NDAC, IEEE488.NRFD, IEEE488.SRQ, IEEE488.ATN,
    IEEE488.REN, IEEE488.IFC]

/-- A line with `FLOATING` collapsed to `FALSE` (negated). -/
def IEEEBool.collapse : IEEEBool → IEEEBool
  | .TRUE => .TRUE
  | .FALSE => .FALSE
  | .FLOATING => .FALSE

/-! ## The cable (`ieee.go`) -/

/-- The `Connector` interface: what an end of the cable presents (`Read`) and how it takes
the merged state (`Write`), over the state `σ` of the device behind it. -/
structure Connector (σ : Type) where
  Read : σ → IEEE488
  Write : σ → IEEE488 → σ

/-- The states of the A end and of the B end after `Cable.Sync`. -/
def Cable.Sync {α β : Type} (A : Connector α) (B : Connector β) (a : α) (b : β) : α × β :=
  let aEnd := A.Read a
  let bEnd := B.Read b
  let combined := aEnd.Or bEnd
  (A.Write a combined, B.Write b combined)

/-! ## The drive connector (`cbm2031.go`) -/

/-- Modelled from the spec: `mos6502.BIT_0` .. `mos6502.BIT_7` come from the imported CPU
package, which is not part of the sources; the spec calls them "Port B bit 0" .. "bit 7". -/
abbrev BIT_0 : Nat := 1 <<< 0
abbrev BIT_1 : Nat := 1 <<< 1
abbrev BIT_2 : Nat := 1 <<< 2
abbrev BIT_3 : Nat := 1 <<< 3
abbrev BIT_7 : Nat := 1 <<< 7

structure CBM2031Connector where
  Via : VIA
deriving DecidableEq, Repr

def CBM2031Connector.Read (c : CBM2031Connector) : IEEE488 :=
  let out := MakeIEEE488
  let portA := Out c.Via PORT_A
  let portADir := PeekRegister c.Via PORT_A_DIR
  let ca1 := CtrlPeek c.Via CTRL_CA1
  let portB := Out c.Via PORT_B
  let portBDir := PeekRegister c.Via PORT_B_DIR
  let atna : Bool := if portB &&& BIT_0 ≠ 0 then true else false
  let nrfd0 : Bool := if portB &&& BIT_1 ≠ 0 then true else false
  let ndac0 : Bool := if portB &&& BIT_2 ≠ 0 then true else false
  let nrfd : Bool := if atna ≠ ca1 then false else nrfd0
  let ndac : Bool := if atna ≠ ca1 then false else ndac0
  let out1 : IEEE488 :=
    if portBDir &&& BIT_1 = 0 then { out with NRFD := .FLOATING }
    else if nrfd then { out with NRFD := .FALSE } else { out with NRFD := .TRUE }
  let out2 : IEEE488 :=
    if portBDir &&& BIT_2 = 0 then { out1 with NRFD := .FLOATING }
    else if ndac then { out1 with NDAC := .FALSE } else { out1 with NDAC := .TRUE }
  let out3 : IEEE488 :=
    if portBDir &&& BIT_3 = 0 then { out2 with EOI := .FLOATING }
    else if portB &&& BIT_3 ≠ 0 then { out2 with EOI := .FALSE }
    else { out2 with EOI := .TRUE }
  let out4 : IEEE488 :=
    if portBDir &&& BIT_6 = 0 then { out3 with DAV := .FLOATING }
    else if portB &&& BIT_6 ≠ 0 then { out3 with DAV := .FALSE }
    else { out3 with DAV := .TRUE }
  { out4 with DIO := portA &&& portADir }

def CBM2031Connector.Write (c : CBM2031Connector) (i : IEEE488) : CBM2031Connector :=
  let ttlATN : Bool := !i.ATN.ToTTL
  let portB1 : Nat := if ttlATN then 0 ||| BIT_7 else 0
  let v1 := CtrlIn c.Via CTRL_CA1 ttlATN
  let ttlNRFD : Bool := i.NRFD.ToTTL
  let portB2 : Nat := if ttlNRFD then portB1 ||| BIT_1 else portB1
  let v2 := CtrlIn v1 CTRL_CA2 ttlNRFD
  let ttlNDAC : Bool := i.NDAC.ToTTL
  let portB3 : Nat := if ttlNDAC then portB2 ||| BIT_2 else portB2
  let ttlEOI : Bool := i.EOI.ToTTL
  let portB4 : Nat := if ttlEOI then portB3 ||| BIT_3 else portB3
  let ttlDAV : Bool := i.DAV.ToTTL
  let portB5 : Nat := if ttlDAV then portB4 ||| BIT_6 else portB4
  let v3 := In v2 PORT_A i.DIO
  let v4 := In v3 PORT_B portB5
  { Via := v4 }

/-- The drive end of the cable. -/
def driveConnector : Connector CBM2031Connector :=
  { Read := CBM2031Connector.Read, Write := CBM2031Connector.Write }

/-! ## The host connector and the bus master (`monitor.go`) -/

/-- The host end: what it drives (`Out`) and what the last `Write` latched (`In`).  The two
anonymous struct types of the source have exactly the fields of `IEEE488`. -/
structure DummyConnector where
  In : IEEE488
  Out : IEEE488
deriving DecidableEq, Repr

def DummyConnector.Reset (c : DummyConnector) : DummyConnector :=
  { c with Out := { c.Out with DAV := .FLOATING, EOI := .FLOATING, NDAC := .FLOATING,
                               NRFD := .FLOATING, SRQ := .FLOATING, ATN := .FLOATING,
                               REN := .FLOATING, IFC := .FLOATING } }

def DummyConnector.Read (c : DummyConnector) : IEEE488 :=
  { ATN := c.Out.ATN, NRFD := c.Out.NRFD, NDAC := c.Out.NDAC, EOI := c.Out.EOI,
    DAV := c.Out.DAV, REN := c.Out.REN, SRQ := c.Out.SRQ, IFC := c.Out.IFC,
    DIO := bnot c.Out.DIO }

def DummyConnector.Write (c : DummyConnector) (i : IEEE488) : DummyConnector :=
  { c with In := { ATN := i.ATN, NRFD := i.NRFD, NDAC := i.NDAC, EOI := i.EOI,
                   DAV := i.DAV, REN := i.REN, SRQ := i.SRQ, IFC := i.IFC,
                   DIO := bnot i.DIO } }

/-- The host end of the cable. -/
def hostConnector : Connector DummyConnector :=
  { Read := DummyConnector.Read, Write := DummyConnector.Write }

/-- One bounded polling loop of the bus master,
`for n := 0; n < 500 && !found; n++ { if cond { found = true } else { sleep } }`.
The incoming latch is refilled by the drive loop between two polls, so the loop reads it
through `obs`: `obs t` is the latch as poll number `t` of the command sees it.  The result
is `found` and the number of the next poll. -/
def pollLoop (cond : IEEE488 → Bool) (obs : Nat → IEEE488) : Nat → Nat → Bool × Nat
  | 0, t => (false, t)
  | fuel + 1, t => if cond (obs t) then (true, t + 1) else pollLoop cond obs fuel (t + 1)

/-- The handshake that sends one address byte (the source writes it out twice, for the
primary and for the secondary address): drive `byte`, wait for ready, assert DAV, wait for
busy, wait for accepted, negate DAV and leave `rest` on DIO, wait for idle. -/
def cmdSend (obs : Nat → IEEE488) (byte rest : Nat) (c : DummyConnector) (t : Nat) :
    Option String × DummyConnector × Nat :=
  let c1 := { c with Out := { c.Out with DIO := byte } }
  let ready := pollLoop (fun i => i.NDAC == .TRUE && i.NRFD == .FALSE) obs 500 t
  if !ready.1 then (some "remote did not become ready", c1, ready.2) else
  let c2 := { c1 with Out := { c1.Out with DAV := .TRUE } }
  let busy := pollLoop (fun i => i.NRFD == .TRUE) obs 500 ready.2
  if !busy.1 then (some "remote did not become busy", c2, busy.2) else
  let accepted := pollLoop (fun i => i.NDAC == .FALSE) obs 500 busy.2
  if !accepted.1 then (some "remote did not accept byte", c2, accepted.2) else
  let c3 := { c2 with Out := { c2.Out with DAV := .FALSE, DIO := rest } }
  let idle := pollLoop (fun i => i.NDAC == .TRUE) obs 500 accepted.2
  if !idle.1 then (some "remote did not became idle", c3, idle.2) else
  (none, c3, idle.2)

/-- The body of `cmd` up to its `return` statements: the error (`none` for `nil`, the
message without its formatted signal values) and the connector at that point. -/
def cmdBody (obs : Nat → IEEE488) (primary secondary : Nat) (c : DummyConnector) :
    Option String × DummyConnector :=
  let c0 := c.Reset
  let c1 := { c0 with Out := { c0.Out with ATN := .TRUE } }
  let ack := pollLoop (fun i => i.NDAC == .TRUE) obs 500 0
  if !ack.1 then (some "remote did not acknowledge ATN", c1) else
  match cmdSend obs primary 0 c1 ack.2 with
  | (some e, c2, _) => (some e, c2)
  | (none, c2, t2) =>
    match (if secondary ≠ 0xff then cmdSend obs secondary 0xff c2 t2 else (none, c2, t2)) with
    | (some e, c3, _) => (some e, c3)
    | (none, c3, _) =>
      (none, { c3 with Out := { c3.Out with ATN := .FALSE, NRFD := .TRUE, NDAC := .TRUE } })

/-- `Monitor.cmd` on the monitor's connector: the body, then the deferred function that
negates the outgoing ATN. -/
def Monitor.cmd (obs : Nat → IEEE488) (primary secondary : Nat) (c : DummyConnector) :
    Option String × DummyConnector :=
  let r := cmdBody obs primary secondary c
  (r.1, { r.2 with Out := { r.2.Out with ATN := .FALSE } })

/-! ## Concrete call sequences used by the scenarios below -/

/-- A CA1 high-to-low edge while nothing is enabled, then a write that enables CA1. -/
def irqBreakOps : List Op :=
  [.ctrl CTRL_CA1 true, .ctrl CTRL_CA1 false, .write INT_ENABLE 0x82]

/-- The start of the IRQ aggregation scenario: IE = 0x82, then IE = 0xC2, then CA1 high. -/
def ca1ScenarioOps : List Op :=
  [.write INT_ENABLE 0x82, .write INT_ENABLE 0xC2, .ctrl CTRL_CA1 true]

/-- Enable CA1 and T1 (IE = 0x42), then ask to disable T1 with bit 7 clear. -/
def ieClearOps : List Op := [.write INT_ENABLE 0xC2, .write INT_ENABLE 0x40]

/-- The zero state after the bus has merged 0xFF into the all-input Port A. -/
def inputLatched : VIA := In (VIA.zero 0) PORT_A 0xFF

/-- Write Port A while it is all inputs, then turn every pin into an output. -/
def staleOutOps : List Op := [.write PORT_A 0xFF, .write PORT_A_DIR 0xFF]

/-- CA2 as an input with PCR bit 1 set (PCR = 0x02), then a CA2 high-to-low edge. -/
def ca2IndependentOps : List Op :=
  [.write PERIPHERAL_CTRL 0x02, .ctrl CTRL_CA2 true, .ctrl CTRL_CA2 false]

/-- A CA2 high-to-low edge, then CA2 switched to output mode (PCR = 0x08). -/
def ca2OutputOps : List Op :=
  [.ctrl CTRL_CA2 true, .ctrl CTRL_CA2 false, .write PERIPHERAL_CTRL 0x08]

/-- Timer 1 loaded with 16 (LOW = 0x10, HIGH = 0x00), then continuous mode (ACR = 0x40). -/
def timerOps : List Op :=
  [.write TIMER_1_LOW 0x10, .write TIMER_1_HIGH 0x00, .write AUXILLERY_CTRL 0x40]

/-- A state with the T1 flag pending and enabled (IFR = 0xC0, IE = 0x40), low latch 0x10. -/
def t1Pending : VIA := { VIA.zero 0 with timer1LatchLow := 0x10, ifr := 0xC0, ie := 0x40 }

/-- Timer 1 loaded with 16 (LOW = 0x10, HIGH = 0x00), then one clock tick. -/
def t1TickOps : List Op := [.write TIMER_1_LOW 0x10, .write TIMER_1_HIGH 0x00, .tick]

/-- Both Timer 1 latch registers written through their own offsets (6 and 7). -/
def latchOps : List Op := [.write TIMER_1_LATCH_LOW 0x10, .write TIMER_1_LATCH_HIGH 0x27]

/-- A VIA mapped at 0x1800 whose Port B latch holds 0x55. -/
def portBLoaded : VIA := WriteRegister (VIA.zero 0x1800) PORT_B 0x55

/-- The value of the local `portB` of `CBM2031Connector.Write` when it is handed to
`In(PORT_B, ...)`. -/
def CBM2031Connector.inputBits (i : IEEE488) : Nat :=
  let portB1 : Nat := if (!i.ATN.ToTTL) = true then 0 ||| BIT_7 else 0
  let portB2 : Nat := if i.NRFD.ToTTL = true then portB1 ||| BIT_1 else portB1
  let portB3 : Nat := if i.NDAC.ToTTL = true then portB2 ||| BIT_2 else portB2
  let portB4 : Nat := if i.EOI.ToTTL = true then portB3 ||| BIT_3 else portB3
  if i.DAV.ToTTL = true then portB4 ||| BIT_6 else portB4

/-- The zero value of the Go struct: every line 0 (`TRUE`), DIO 0. -/
def IEEE488.zero : IEEE488 :=
  { DAV := .TRUE, EOI := .TRUE, NDAC := .TRUE, NRFD := .TRUE, SRQ := .TRUE, ATN := .TRUE,
    REN := .TRUE, IFC := .TRUE, DIO := 0 }

/-- A host connector after `Reset`: every outgoing line floating. -/
def hostIdle : DummyConnector :=
  DummyConnector.Reset { In := IEEE488.zero, Out := IEEE488.zero }

/-- A host connector that asserts ATN and leaves every other line floating. -/
def hostATN : DummyConnector := { hostIdle with Out := { hostIdle.Out with ATN := .TRUE } }

/-- A drive that answers every step of the handshake at once: acknowledge, ready, busy,
accepted, idle. -/
def promptDrive (t : Nat) : IEEE488 :=
  if t = 0 then { MakeIEEE488 with NDAC := .TRUE, NRFD := .TRUE }
  else if t = 1 then { MakeIEEE488 with NDAC := .TRUE, NRFD := .FALSE }
  else if t = 2 then { MakeIEEE488 with NDAC := .TRUE, NRFD := .TRUE }
  else if t = 3 then { MakeIEEE488 with NDAC := .FALSE, NRFD := .TRUE }
  else { MakeIEEE488 with NDAC := .TRUE, NRFD := .TRUE }

/-- Port B with NRFD (bit 1) an output and NDAC (bit 2) an input. -/
def ndacInputOps : List Op := [.write PORT_B_DIR 0x02]

/-- Port B with NRFD (bit 1) an input and NDAC (bit 2) an output. -/
def nrfdInputOps : List Op := [.write PORT_B_DIR 0x04]

/-- Port B bits 0-2 outputs, Port B = 0 (ATNA low), then CA1 high. -/
def gateOps : List Op := [.write PORT_B_DIR 0x07, .write PORT_B 0x00, .ctrl CTRL_CA1 true]

/-- The state of the IRQ aggregation scenario with the CA1 flag up: IFR = 0x82, IE = 0x42. -/
def irqPending : VIA := CtrlIn (run (VIA.zero 0) ca1ScenarioOps) CTRL_CA1 false

/-- The drive connector on a freshly reset VIA: both ports all inputs. -/
def driveIdle : CBM2031Connector := { Via := VIA.zero 0x1800 }

/-- A merged bus state with ATN asserted and 0xA5 on the data lines. -/
def busATN : IEEE488 := { MakeIEEE488 with ATN := .TRUE, DIO := 0xA5 }

/-! ## Bit-level facts about bytes -/

theorem bnot_lt (x : Nat) : bnot x < 256 := by
  unfold bnot; omega

theorem testBit_bnot (x i : Nat) : (bnot x).testBit i = (decide (i < 8) && !x.testBit i) := by
  unfold bnot
  have h255 : (0xFF : Nat) = 2 ^ 8 - 1 := by decide
  have h256 : (256 : Nat) = 2 ^ 8 := by decide
  rw [h256, Nat.testBit_mod_two_pow, Nat.testBit_xor, h255, Nat.testBit_two_pow_sub_one]
  by_cases h : i < 8 <;> simp [h]

theorem bnot_eq_sub (x : Nat) (h : x < 256) : bnot x = 255 - x := by
  apply Nat.eq_of_testBit_eq
  intro i
  have h2 : 255 - x = 2 ^ 8 - (x + 1) := by omega
  rw [testBit_bnot, h2, Nat.testBit_two_pow_sub_succ (by omega)]

theorem and_two_pow_eq_zero_iff (x k : Nat) : x &&& 2 ^ k = 0 ↔ x.testBit k = false := by
  constructor
  · intro h
    have h1 : (x &&& 2 ^ k).testBit k = false := by rw [h]; simp
    simpa [Nat.testBit_two_pow_self] using h1
  · intro h
    apply Nat.eq_of_testBit_eq
    intro i
    by_cases hik : k = i
    · subst hik; simp [h]
    · simp [Nat.testBit_two_pow_of_ne hik]

theorem and_two_pow_ne_zero_iff (x k : Nat) : x &&& 2 ^ k ≠ 0 ↔ x.testBit k = true := by
  rw [Ne, and_two_pow_eq_zero_iff]; simp

theorem eq_zero_iff_testBit (x : Nat) : x = 0 ↔ ∀ i, x.testBit i = false := by
  constructor
  · intro h i; simp [h]
  · intro h
    apply Nat.eq_of_testBit_eq
    intro i; simp [h i]

theorem testBit_0x7f (i : Nat) : Nat.testBit 0x7f i = decide (i < 7) :=
  Nat.testBit_two_pow_sub_one 7 i

theorem testBit_0x80 (i : Nat) : Nat.testBit 0x80 i = decide (7 = i) :=
  @Nat.testBit_two_pow 7 i

/-! ## Facts about the interrupt flag helpers -/

theorem setOrClearIRQ_def (v : VIA) :
    setOrClearIRQ v =
      if (v.ifr &&& 0x7f) &&& (v.ie &&& 0x7f) = 0 then { v with ifr := v.ifr &&& 0x7f }
      else { v with ifr := v.ifr ||| INT_IRQ } := rfl

theorem setOrClearIRQ_eq (v : VIA) :
    setOrClearIRQ v = { v with ifr := (setOrClearIRQ v).ifr } := by
  rw [setOrClearIRQ_def]; split <;> rfl

theorem setOrClearIRQ_testBit_low (v : VIA) (i : Nat) (hi : i < 7) :
    (setOrClearIRQ v).ifr.testBit i = v.ifr.testBit i := by
  have h7f : (0x7f : Nat) = 2 ^ 7 - 1 := by decide
  have h80 : (1 <<< 7 : Nat) = 2 ^ 7 := by decide
  rw [setOrClearIRQ_def]
  split
  · simp only [h7f, Nat.testBit_and, Nat.testBit_two_pow_sub_one]; simp [hi]
  · simp only [INT_IRQ, h80, Nat.testBit_or, Nat.testBit_two_pow]
    have : ¬ (7 = i) := by omega
    simp [this]

theorem setOrClearIRQ_inv (v : VIA) : IRQInv (setOrClearIRQ v) := by
  have h7f : (0x7f : Nat) = 2 ^ 7 - 1 := by decide
  have h80 : (0x80 : Nat) = 2 ^ 7 := by decide
  have h80s : (1 <<< 7 : Nat) = 2 ^ 7 := by decide
  unfold IRQInv
  rw [setOrClearIRQ_def]
  by_cases h : (v.ifr &&& 0x7f) &&& (v.ie &&& 0x7f) = 0
  · simp only [h, if_true]
    have hl : (v.ifr &&& 0x7f) &&& 0x80 = 0 := by
      apply Nat.eq_of_testBit_eq; intro i
      simp only [h7f, h80, Nat.testBit_and, Nat.testBit_two_pow_sub_one, Nat.testBit_two_pow,
        Nat.zero_testBit]
      by_cases h7 : 7 = i
      · subst h7; simp
      · simp [h7]
    have hr : (v.ifr &&& 0x7f) &&& v.ie &&& 0x7f = 0 := by
      rw [← h]
      apply Nat.eq_of_testBit_eq; intro i
      simp only [Nat.testBit_and]
      cases v.ifr.testBit i <;> cases v.ie.testBit i <;> cases (0x7f : Nat).testBit i <;> rfl
    simp [hl, hr]
  · simp only [h, if_false]
    have hl : (v.ifr ||| INT_IRQ) &&& 0x80 ≠ 0 := by
      have hb : Nat.testBit INT_IRQ 7 = true := by decide
      rw [h80, and_two_pow_ne_zero_iff, Nat.testBit_or, hb]
      simp
    have hr : (v.ifr ||| INT_IRQ) &&& v.ie &&& 0x7f = (v.ifr &&& 0x7f) &&& (v.ie &&& 0x7f) := by
      apply Nat.eq_of_testBit_eq; intro i
      simp only [INT_IRQ, h80s, h7f, Nat.testBit_and, Nat.testBit_or,
        Nat.testBit_two_pow_sub_one, Nat.testBit_two_pow]
      by_cases h7 : 7 = i
      · subst h7; simp
      · simp [h7]
        cases v.ifr.testBit i <;> cases v.ie.testBit i <;> simp
    rw [hr]
    exact ⟨fun _ => h, fun _ => hl⟩

theorem setOrClearIRQ_eq_irqOf (v : VIA) :
    setOrClearIRQ v = { v with ifr := irqOf v.ifr v.ie } := by
  rw [setOrClearIRQ_def, irqOf]; split <;> rfl

theorem setInterrupt_eq (v : VIA) (i : Nat) :
    setInterrupt v i = { v with ifr := irqOf (v.ifr ||| i) v.ie } := by
  rw [setInterrupt, setOrClearIRQ_eq_irqOf]

theorem clearInterrupt_eq (v : VIA) (i : Nat) :
    clearInterrupt v i = { v with ifr := irqOf (v.ifr &&& bnot i) v.ie } := by
  rw [clearInterrupt, setOrClearIRQ_eq_irqOf]

theorem irqOf_of_low_zero (f e : Nat) (h : f &&& 0x7f = 0) : irqOf f e = 0 := by
  simp [irqOf, h]

theorem irqOf_of_enabled (f e k : Nat) (hk : k < 7) (hf : f.testBit k = true)
    (he : e.testBit k = true) : irqOf f e = f ||| INT_IRQ := by
  have hne : (f &&& 0x7f) &&& (e &&& 0x7f) ≠ 0 := by
    intro h
    have h1 : ((f &&& 0x7f) &&& (e &&& 0x7f)).testBit k = false := by rw [h]; simp
    simp only [Nat.testBit_and, testBit_0x7f, hf, he, hk, decide_True, Bool.and_self] at h1
    exact Bool.noConfusion h1
  simp [irqOf, hne]

theorem testBit_irqOf_low (f e i : Nat) (hi : i < 7) : (irqOf f e).testBit i = f.testBit i := by
  have h := setOrClearIRQ_testBit_low { VIA.zero 0 with ifr := f, ie := e } i hi
  rw [setOrClearIRQ_eq_irqOf] at h
  exact h

/-! ## Facts about the timer -/

theorem Clock_of_zero (v : VIA) (h : v.timer1Counter = 0) : Clock v = v := by
  simp [Clock, h]

theorem Clock_of_gt_one (v : VIA) (h : 1 < v.timer1Counter) :
    Clock v = { v with timer1Counter := v.timer1Counter - 1 } := by
  have h0 : 0 < v.timer1Counter := by omega
  have h1 : ¬ (v.timer1Counter - 1 = 0) := by omega
  simp [Clock, h0, h1]

theorem Clock_of_one (v : VIA) (h : v.timer1Counter = 1) :
    Clock v =
      if v.acr &&& BIT_6 ≠ 0 then
        setTimer1Counter (setInterrupt { v with timer1Counter := 0 } INT_T1)
      else setInterrupt { v with timer1Counter := 0 } INT_T1 := by
  simp [Clock, h, setInterrupt_eq]

theorem clockN_add (a b : Nat) (v : VIA) : clockN (a + b) v = clockN b (clockN a v) := by
  induction a generalizing v with
  | zero => simp [clockN]
  | succ n ih => rw [Nat.succ_add]; simp only [clockN]; exact ih (Clock v)

theorem clockN_countdown (k : Nat) (v : VIA) (h : k < v.timer1Counter) :
    clockN k v = { v with timer1Counter := v.timer1Counter - k } := by
  induction k generalizing v with
  | zero => simp [clockN]
  | succ n ih =>
    simp only [clockN]
    rw [Clock_of_gt_one v (by omega), ih _ (by simp; omega)]
    simp; omega

theorem clockN_of_zero (k : Nat) (v : VIA) (h : v.timer1Counter = 0) : clockN k v = v := by
  induction k with
  | zero => rfl
  | succ n ih => simp only [clockN]; rw [Clock_of_zero v h]; exact ih

theorem clockN_period (v : VIA) (hacr : v.acr &&& BIT_6 ≠ 0) (hload : setTimer1Counter v = v)
    (hpos : 1 ≤ v.timer1Counter) :
    clockN v.timer1Counter v = setInterrupt v INT_T1 := by
  obtain ⟨n, hn⟩ : ∃ n, v.timer1Counter = n + 1 := ⟨v.timer1Counter - 1, by omega⟩
  rw [hn, clockN_add, clockN_countdown n v (by omega)]
  simp only [clockN]
  rw [Clock_of_one _ (by simp; omega)]
  have hacr2 : ¬ (v.acr &&& BIT_6 = 0) := hacr
  have hl := congrArg VIA.timer1Counter hload
  simp only [setTimer1Counter] at hl
  simp [setInterrupt_eq, setTimer1Counter, hacr2, hl]

theorem oneshot_underflow (v : VIA) (hacr : v.acr &&& BIT_6 = 0) (hpos : 1 ≤ v.timer1Counter) :
    clockN v.timer1Counter v = setInterrupt { v with timer1Counter := 0 } INT_T1 := by
  obtain ⟨n, hn⟩ : ∃ n, v.timer1Counter = n + 1 := ⟨v.timer1Counter - 1, by omega⟩
  rw [hn, clockN_add, clockN_countdown n v (by omega)]
  simp only [clockN]
  rw [Clock_of_one _ (by simp; omega)]
  simp [hacr]

theorem t1_flag_set (f e : Nat) : irqOf (f ||| INT_T1) e &&& INT_T1 ≠ 0 := by
  apply (and_two_pow_ne_zero_iff _ 6).2
  rw [testBit_irqOf_low _ _ 6 (by decide), Nat.testBit_or]
  have : Nat.testBit INT_T1 6 = true := by decide
  simp [this]

theorem t1_flag_clear (f e : Nat) : irqOf (f &&& bnot INT_T1) e &&& INT_T1 = 0 := by
  apply (and_two_pow_eq_zero_iff _ 6).2
  rw [testBit_irqOf_low _ _ 6 (by decide), Nat.testBit_and, testBit_bnot]
  have : Nat.testBit INT_T1 6 = true := by decide
  simp [this]

/-- The state after one full period in continuous mode is again ready for a period. -/
theorem continuous_cycle (w : VIA) (hacr : w.acr &&& BIT_6 ≠ 0)
    (hload : setTimer1Counter w = w) (hpos : 1 ≤ w.timer1Counter) :
    (clockN w.timer1Counter w).acr = w.acr ∧
    setTimer1Counter (clockN w.timer1Counter w) = clockN w.timer1Counter w ∧
    (clockN w.timer1Counter w).timer1Counter = w.timer1Counter ∧
    (clockN w.timer1Counter w).ifr &&& INT_T1 ≠ 0 := by
  rw [clockN_period w hacr hload hpos, setInterrupt_eq]
  have hl := congrArg VIA.timer1Counter hload
  simp only [setTimer1Counter] at hl
  refine ⟨rfl, ?_, rfl, t1_flag_set _ _⟩
  simp [setTimer1Counter, hl]

theorem continuous_multiples (v : VIA) (hacr : v.acr &&& BIT_6 ≠ 0)
    (hload : setTimer1Counter v = v) (hpos : 1 ≤ v.timer1Counter) (j : Nat) :
    (clockN (j * v.timer1Counter) v).acr = v.acr ∧
    setTimer1Counter (clockN (j * v.timer1Counter) v) = clockN (j * v.timer1Counter) v ∧
    (clockN (j * v.timer1Counter) v).timer1Counter = v.timer1Counter ∧
    (1 ≤ j → (clockN (j * v.timer1Counter) v).ifr &&& INT_T1 ≠ 0) := by
  induction j with
  | zero => simp [clockN, hload]
  | succ n ih =>
    obtain ⟨ha, hl, hc, _⟩ := ih
    rw [Nat.succ_mul, clockN_add]
    have h := continuous_cycle (clockN (n * v.timer1Counter) v) (by rw [ha]; exact hacr) hl
      (by rw [hc]; exact hpos)
    rw [hc] at h
    exact ⟨h.1.trans ha, h.2.1, h.2.2.1, fun _ => h.2.2.2⟩

/-! ## Facts about port reads and IE writes -/

theorem readPort_ifr_bits (f e p m1 m2 : Nat) (k1 k2 : Nat)
    (hm1 : ∀ i, m1.testBit i = decide (k1 = i)) (hm2 : ∀ i, m2.testBit i = decide (k2 = i)) :
    ∀ i, i < 7 →
      (if p = 0 then irqOf (irqOf (f &&& bnot m1) e &&& bnot m2) e
        else irqOf (f &&& bnot m1) e).testBit i =
      (f.testBit i && !decide (k1 = i) && !(decide (k2 = i) && decide (p = 0))) := by
  intro i hi
  have h8 : i < 8 := by omega
  by_cases hp : p = 0
  · simp [hp, testBit_irqOf_low _ _ i hi, testBit_bnot, hm1, hm2, h8]
  · simp [hp, testBit_irqOf_low _ _ i hi, testBit_bnot, hm1, hm2, h8]

/-- What the `// Clear` branch of the IE write computes: the complement of `IE AND data`. -/
theorem WriteRegister_ie_clear (v : VIA) (d : Nat) (hd : d &&& 0x80 = 0) :
    (WriteRegister v INT_ENABLE d).ie = bnot (v.ie &&& d) &&& 0x7f := by
  simp only [WriteRegister, hd]
  simp
  apply Nat.eq_of_testBit_eq
  intro i
  simp only [Nat.testBit_and, Nat.testBit_or, testBit_bnot, testBit_0x7f]
  by_cases h7 : i < 7
  · have h8 : i < 8 := by omega
    simp [h7, h8]
  · simp [h7]

/-! ## Facts about Timer 1 writes, control-line edges and the IFR write -/

theorem latch_word (h l : Nat) (hh : h < 256) (hl : l < 256) :
    ((h <<< 8) % 65536) ||| l = h * 256 + l := by
  have h1 : h <<< 8 = 2 ^ 8 * h := by rw [Nat.shiftLeft_eq, Nat.mul_comm]
  have h2 : 2 ^ 8 * h % 65536 = 2 ^ 8 * h := Nat.mod_eq_of_lt (by omega)
  rw [h1, h2, ← Nat.mul_add_lt_is_or (by omega : l < 2 ^ 8) h]
  omega

theorem IRQInv_of_ifr_ie (a b : VIA) (h1 : a.ifr = b.ifr) (h2 : a.ie = b.ie) (hb : IRQInv b) :
    IRQInv a := by
  unfold IRQInv at *; rw [h1, h2]; exact hb

theorem ca1_flag_after_set (v : VIA) : (setInterrupt v INT_CA1).ifr.testBit 1 = true := by
  rw [setInterrupt_eq]
  simp only []
  rw [testBit_irqOf_low _ _ 1 (by decide), Nat.testBit_or]
  have : Nat.testBit INT_CA1 1 = true := by decide
  simp [this]

theorem and_two_pow_ne_one (x k : Nat) (hk : 0 < k) : x &&& 2 ^ k ≠ 1 := by
  intro h
  have h0 : (x &&& 2 ^ k).testBit 0 = true := by rw [h]; decide
  rw [Nat.testBit_and, Nat.testBit_two_pow_of_ne (by omega : k ≠ 0)] at h0
  simp at h0

theorem ctrlInSet_pcr (v : VIA) (c : Nat) : (ctrlInSet v c).pcr = v.pcr := by
  unfold ctrlInSet
  split_ifs <;> simp [setInterrupt_eq]

/-- For a polarity mask above bit 0 the second test of `ctrlEdge` never succeeds: only a
high-to-low transition with the polarity bit clear raises the flag. -/
theorem ctrlEdge_of_high_mask (v : VIA) (c k tr : Nat) (hk : 0 < k) :
    ctrlEdge v c (2 ^ k) tr =
      if v.pcr &&& 2 ^ k = 0 ∧ tr = HI_TO_LO then ctrlInSet v c else v := by
  unfold ctrlEdge
  by_cases h : v.pcr &&& 2 ^ k = 0 ∧ tr = HI_TO_LO
  · have h1 : ¬ ((ctrlInSet v c).pcr &&& 2 ^ k = 1 ∧ tr = LO_TO_HI) := by
      rw [ctrlInSet_pcr]; exact fun h2 => and_two_pow_ne_one _ k hk h2.1
    simp only [h, and_self, if_true]
    simp only [h.2] at h1
    simp [h1]
  · have h1 : ¬ (v.pcr &&& 2 ^ k = 1 ∧ tr = LO_TO_HI) :=
      fun h2 => and_two_pow_ne_one _ k hk h2.1
    simp [h, h1]

theorem testBit_0x1B (i : Nat) :
    Nat.testBit 0x1B i = (decide (i = 0) || decide (i = 1) || decide (i = 3) || decide (i = 4)) := by
  have h : (0x1B : Nat) = 2 ^ 0 ||| 2 ^ 1 ||| 2 ^ 3 ||| 2 ^ 4 := by decide
  rw [h]
  simp only [Nat.testBit_or, Nat.testBit_two_pow]
  by_cases h0 : i = 0 <;> by_cases h1 : i = 1 <;> by_cases h3 : i = 3 <;> by_cases h4 : i = 4 <;>
    simp [h0, h1, h3, h4, eq_comm]

theorem clear_if_bit (f e d m k i : Nat) (hm : m = 2 ^ k) (hi : i < 7) :
    (if d &&& m ≠ 0 then irqOf (f &&& bnot m) e else f).testBit i =
      (f.testBit i && !(d.testBit k && decide (k = i))) := by
  subst hm
  have h8 : i < 8 := by omega
  by_cases h : d &&& 2 ^ k ≠ 0
  · have hb := (and_two_pow_ne_zero_iff d k).1 h
    simp only [h, if_true, ne_eq, not_false_eq_true]
    rw [testBit_irqOf_low _ _ i hi, Nat.testBit_and, testBit_bnot, Nat.testBit_two_pow, hb]
    simp [h8]
  · have hb : d.testBit k = false := by
      have := (and_two_pow_ne_zero_iff d k).not.1 h
      simpa using this
    simp [h, hb]

theorem condClear_eq (v : VIA) (d m : Nat) :
    (if d &&& m ≠ 0 then clearInterrupt v m else v) =
      { v with ifr := (if d &&& m ≠ 0 then irqOf (v.ifr &&& bnot m) v.ie else v.ifr) } := by
  split <;> simp [clearInterrupt_eq]

theorem writeIntFlags_eq (v : VIA) (d : Nat) :
    writeIntFlags v d = { v with ifr := (writeIntFlags v d).ifr } := by
  simp only [writeIntFlags, condClear_eq]

theorem writeIntFlags_testBit (v : VIA) (d i : Nat) (hi : i < 7) :
    (writeIntFlags v d).ifr.testBit i =
      (v.ifr.testBit i && !(d.testBit i && Nat.testBit 0x1B i)) := by
  simp only [writeIntFlags, condClear_eq]
  rw [clear_if_bit _ _ d INT_CB1 4 i rfl hi, clear_if_bit _ _ d INT_CB2 3 i rfl hi,
    clear_if_bit _ _ d INT_CA1 1 i rfl hi, clear_if_bit _ _ d INT_CA2 0 i rfl hi, testBit_0x1B]
  by_cases h0 : i = 0
  · subst h0; simp
  by_cases h1 : i = 1
  · subst h1; simp
  by_cases h3 : i = 3
  · subst h3; simp
  by_cases h4 : i = 4
  · subst h4; simp
  have e0 : ¬ (0 = i) := fun h => h0 h.symm
  have e1 : ¬ (1 = i) := fun h => h1 h.symm
  have e3 : ¬ (3 = i) := fun h => h3 h.symm
  have e4 : ¬ (4 = i) := fun h => h4 h.symm
  simp [h0, h1, h3, h4, e0, e1, e3, e4]

/-! ## Facts about register decoding and the wired-OR merge -/

/-- Outside the two latch registers `PeekRegister` returns what `ReadRegister` returns. -/
theorem peek_eq_read (v : VIA) (r : Nat) (h6 : r ≠ TIMER_1_LATCH_LOW)
    (h7 : r ≠ TIMER_1_LATCH_HIGH) : PeekRegister v r = (ReadRegister v r).2 := by
  have h6n : r ≠ 6 := h6
  have h7n : r ≠ 7 := h7
  have hr : r = 0 ∨ r = 1 ∨ r = 2 ∨ r = 3 ∨ r = 4 ∨ r = 5 ∨ r = 0xb ∨ r = 0xc ∨ r = 0xd ∨
      r = 0xe ∨ (r = 8 ∨ r = 9 ∨ r = 10 ∨ 15 ≤ r) := by omega
  rcases hr with h | h | h | h | h | h | h | h | h | h | h
  iterate 10
    subst h
    simp [PeekRegister, ReadRegister, clearInterrupt_eq, apply_ite]
  have e0 : r ≠ 0 := by omega
  have e1 : r ≠ 1 := by omega
  have e2 : r ≠ 2 := by omega
  have e3 : r ≠ 3 := by omega
  have e4 : r ≠ 4 := by omega
  have e5 : r ≠ 5 := by omega
  have eb : r ≠ 0xb := by omega
  have ec : r ≠ 0xc := by omega
  have ed : r ≠ 0xd := by omega
  have ee : r ≠ 0xe := by omega
  simp [PeekRegister, ReadRegister, e0, e1, e2, e3, e4, e5, h6n, h7n, eb, ec, ed, ee]

/-- Inside a 256-byte window above `Base` the register index is the offset itself. -/
theorem regOf_of_offset (v : VIA) (addr : Nat) (hB : v.Base ≤ addr) (ha : addr < 65536)
    (ho : addr - v.Base < 256) : regOf v addr = addr - v.Base := by
  unfold regOf
  omega

theorem orLine_assoc (x y z : IEEEBool) :
    (if x = .TRUE ∨ (if y = .TRUE ∨ z = .TRUE then IEEEBool.TRUE else IEEEBool.FALSE) = .TRUE
      then IEEEBool.TRUE else IEEEBool.FALSE) =
    (if (if x = .TRUE ∨ y = .TRUE then IEEEBool.TRUE else IEEEBool.FALSE) = .TRUE ∨ z = .TRUE
      then IEEEBool.TRUE else IEEEBool.FALSE) := by
  cases x <;> cases y <;> cases z <;> rfl

theorem orLine_facts (x y : IEEEBool) :
    (if x = .TRUE ∨ y = .TRUE then IEEEBool.TRUE else IEEEBool.FALSE) ≠ .FLOATING ∧
    (y = .FLOATING →
      (if x = .TRUE ∨ y = .TRUE then IEEEBool.TRUE else IEEEBool.FALSE) = x.collapse) ∧
    (x = .FLOATING →
      (if x = .TRUE ∨ y = .TRUE then IEEEBool.TRUE else IEEEBool.FALSE) = y.collapse) := by
  cases x <;> cases y <;> simp [IEEEBool.collapse]

/-! ## Facts about the drive connector -/

theorem Read_NRFD (c : CBM2031Connector) :
    c.Read.NRFD =
      if c.Via.portBDir &&& BIT_2 = 0 then .FLOATING
      else if c.Via.portBDir &&& BIT_1 = 0 then .FLOATING
      else if decide (Out c.Via PORT_B &&& BIT_0 ≠ 0) ≠ c.Via.ca1 then .TRUE
      else if Out c.Via PORT_B &&& BIT_1 = 0 then .TRUE else .FALSE := by
  have hd : PeekRegister c.Via PORT_B_DIR = c.Via.portBDir := rfl
  have hc : CtrlPeek c.Via CTRL_CA1 = c.Via.ca1 := rfl
  simp only [CBM2031Connector.Read, apply_ite IEEE488.NRFD, ite_self, hd, hc]
  generalize Out c.Via PORT_B &&& BIT_0 = x0
  generalize Out c.Via PORT_B &&& BIT_1 = x1
  generalize c.Via.ca1 = k
  by_cases a : x0 = 0 <;> by_cases b : x1 = 0 <;> cases k <;> simp [a, b]

theorem Read_NDAC (c : CBM2031Connector) :
    c.Read.NDAC =
      if c.Via.portBDir &&& BIT_2 = 0 then .FALSE
      else if decide (Out c.Via PORT_B &&& BIT_0 ≠ 0) ≠ c.Via.ca1 then .TRUE
      else if Out c.Via PORT_B &&& BIT_2 = 0 then .TRUE else .FALSE := by
  have hd : PeekRegister c.Via PORT_B_DIR = c.Via.portBDir := rfl
  have hc : CtrlPeek c.Via CTRL_CA1 = c.Via.ca1 := rfl
  simp only [CBM2031Connector.Read, apply_ite IEEE488.NDAC, ite_self, hd, hc, MakeIEEE488]
  generalize Out c.Via PORT_B &&& BIT_0 = x0
  generalize Out c.Via PORT_B &&& BIT_2 = x2
  generalize c.Via.ca1 = k
  by_cases a : x0 = 0 <;> by_cases b : x2 = 0 <;> cases k <;> simp [a, b]

theorem Read_EOI (c : CBM2031Connector) :
    c.Read.EOI =
      if c.Via.portBDir &&& BIT_3 = 0 then .FLOATING
      else if Out c.Via PORT_B &&& BIT_3 ≠ 0 then .FALSE else .TRUE := by
  have hd : PeekRegister c.Via PORT_B_DIR = c.Via.portBDir := rfl
  simp only [CBM2031Connector.Read, apply_ite IEEE488.EOI, ite_self, hd]

theorem Read_DAV (c : CBM2031Connector) :
    c.Read.DAV =
      if c.Via.portBDir &&& BIT_6 = 0 then .FLOATING
      else if Out c.Via PORT_B &&& BIT_6 ≠ 0 then .FALSE else .TRUE := by
  have hd : PeekRegister c.Via PORT_B_DIR = c.Via.portBDir := rfl
  simp only [CBM2031Connector.Read, apply_ite IEEE488.DAV, ite_self, hd]

theorem testBit_BIT (n k : Nat) : Nat.testBit (1 <<< n) k = decide (n = k) := by
  rw [Nat.one_shiftLeft]; exact Nat.testBit_two_pow

theorem ctrlInSet_frame (v : VIA) (c : Nat) : ∃ f, ctrlInSet v c = { v with ifr := f } := by
  unfold ctrlInSet
  split_ifs
  · exact ⟨_, setInterrupt_eq v _⟩
  · exact ⟨_, setInterrupt_eq v _⟩
  · exact ⟨_, setInterrupt_eq v _⟩
  · exact ⟨_, setInterrupt_eq v _⟩
  · exact ⟨v.ifr, rfl⟩

theorem ctrlEdge_frame (v : VIA) (c m tr : Nat) :
    ∃ f, ctrlEdge v c m tr = { v with ifr := f } := by
  obtain ⟨f1, h1⟩ := ctrlInSet_frame v c
  obtain ⟨f2, h2⟩ := ctrlInSet_frame { v with ifr := f1 } c
  unfold ctrlEdge
  simp only []
  by_cases a : v.pcr &&& m = 0 ∧ tr = HI_TO_LO
  · rw [if_pos a, h1]
    split
    · exact ⟨f2, h2⟩
    · exact ⟨f1, rfl⟩
  · rw [if_neg a]
    split
    · exact ⟨f1, h1⟩
    · exact ⟨v.ifr, rfl⟩

theorem CtrlIn_frame (v : VIA) (c : Nat) (t : Bool) :
    ∃ f a1 a2 b1 b2,
      CtrlIn v c t = { v with ifr := f, ca1 := a1, ca2 := a2, cb1 := b1, cb2 := b2 } := by
  have hid : ∃ f a1 a2 b1 b2,
      v = { v with ifr := f, ca1 := a1, ca2 := a2, cb1 := b1, cb2 := b2 } :=
    ⟨v.ifr, v.ca1, v.ca2, v.cb1, v.cb2, rfl⟩
  unfold CtrlIn
  split
  · exact hid
  · simp only []
    generalize (if t = true then LO_TO_HI else HI_TO_LO) = tr
    split_ifs
    · exact hid
    · obtain ⟨f, h⟩ := ctrlEdge_frame v c PCR_CA1_CTRL tr
      rw [h]; exact ⟨f, t, v.ca2, v.cb1, v.cb2, rfl⟩
    · obtain ⟨f, h⟩ := ctrlEdge_frame v c PCR_CA2_2 tr
      rw [h]; exact ⟨f, v.ca1, t, v.cb1, v.cb2, rfl⟩
    · exact hid
    · obtain ⟨f, h⟩ := ctrlEdge_frame v c PCR_CB1_CTRL tr
      rw [h]; exact ⟨f, v.ca1, v.ca2, t, v.cb2, rfl⟩
    · obtain ⟨f, h⟩ := ctrlEdge_frame v c PCR_CB2_2 tr
      rw [h]; exact ⟨f, v.ca1, v.ca2, v.cb1, t, rfl⟩
    · exact hid
    · exact hid

theorem CtrlIn_CA1_level (v : VIA) (t : Bool) : (CtrlIn v CTRL_CA1 t).ca1 = t := by
  unfold CtrlIn
  have hc : ctrlCurrent v CTRL_CA1 = some v.ca1 := rfl
  rw [hc]
  simp only []
  by_cases h : t = v.ca1
  · simp [h]
  · simp [h]

theorem CtrlIn_CA2_ca1 (v : VIA) (t : Bool) : (CtrlIn v CTRL_CA2 t).ca1 = v.ca1 := by
  unfold CtrlIn
  split
  · rfl
  · simp only []
    generalize (if t = true then LO_TO_HI else HI_TO_LO) = tr
    obtain ⟨f, h⟩ := ctrlEdge_frame v CTRL_CA2 PCR_CA2_2 tr
    split_ifs <;> first | contradiction | simp [h]

theorem In_PORT_A (v : VIA) (d : Nat) :
    In v PORT_A d = { v with portA := (d &&& bnot v.portADir) ||| (v.portA &&& v.portADir) } := by
  simp [In, ReadRegister]

theorem In_PORT_B (v : VIA) (d : Nat) :
    In v PORT_B d = { v with portB := (d &&& bnot v.portBDir) ||| (v.portB &&& v.portBDir) } := by
  simp [In, ReadRegister]

theorem testBit_inputBits (i : IEEE488) (k : Nat) :
    (CBM2031Connector.inputBits i).testBit k =
      ((decide (k = 7) && !i.ATN.ToTTL) || (decide (k = 1) && i.NRFD.ToTTL) ||
        (decide (k = 2) && i.NDAC.ToTTL) || (decide (k = 3) && i.EOI.ToTTL) ||
        (decide (k = 6) && i.DAV.ToTTL)) := by
  unfold CBM2031Connector.inputBits
  cases i.ATN.ToTTL <;> cases i.NRFD.ToTTL <;> cases i.NDAC.ToTTL <;> cases i.EOI.ToTTL <;>
    cases i.DAV.ToTTL <;>
    simp [-Nat.testBit_shiftLeft, testBit_BIT, eq_comm]

theorem Write_Via (c : CBM2031Connector) (i : IEEE488) :
    ∃ f a1 a2 b1 b2,
      (c.Write i).Via =
        { c.Via with
            ifr := f, ca1 := a1, ca2 := a2, cb1 := b1, cb2 := b2,
            portA := (i.DIO &&& bnot c.Via.portADir) ||| (c.Via.portA &&& c.Via.portADir),
            portB := (CBM2031Connector.inputBits i &&& bnot c.Via.portBDir) |||
              (c.Via.portB &&& c.Via.portBDir) } := by
  obtain ⟨f1, a1, a2, b1, b2, h1⟩ := CtrlIn_frame c.Via CTRL_CA1 (!i.ATN.ToTTL)
  obtain ⟨f2, a1', a2', b1', b2', h2⟩ := CtrlIn_frame
    (CtrlIn c.Via CTRL_CA1 (!i.ATN.ToTTL)) CTRL_CA2 i.NRFD.ToTTL
  refine ⟨f2, a1', a2', b1', b2', ?_⟩
  unfold CBM2031Connector.Write CBM2031Connector.inputBits
  simp only [In_PORT_A, In_PORT_B]
  rw [h2, h1]

theorem Write_ca1 (c : CBM2031Connector) (i : IEEE488) :
    (c.Write i).Via.ca1 = !i.ATN.ToTTL := by
  unfold CBM2031Connector.Write
  simp only [In_PORT_A, In_PORT_B]
  rw [CtrlIn_CA2_ca1, CtrlIn_CA1_level]

/-! ## Facts about the host connector and the polling loops -/

theorem bnot_bnot (x : Nat) (h : x < 256) : bnot (bnot x) = x := by
  apply Nat.eq_of_testBit_eq
  intro i
  rw [testBit_bnot, testBit_bnot]
  by_cases h8 : i < 8
  · simp [h8]
  · have : x.testBit i = false := by
      apply Nat.testBit_lt_two_pow
      calc x < 256 := h
        _ = 2 ^ 8 := by decide
        _ ≤ 2 ^ i := Nat.pow_le_pow_right (by decide) (by omega)
    simp [h8, this]

theorem pollLoop_timeout (cond : IEEE488 → Bool) (obs : Nat → IEEE488) (fuel t : Nat)
    (h : ∀ k, t ≤ k → k < t + fuel → cond (obs k) = false) :
    pollLoop cond obs fuel t = (false, t + fuel) := by
  induction fuel generalizing t with
  | zero => rfl
  | succ n ih =>
    have h0 : cond (obs t) = false := h t (Nat.le_refl t) (by omega)
    simp only [pollLoop, h0]
    rw [ih (t + 1) (fun k hk1 hk2 => h k (by omega) (by omega))]
    simp
    omega

/-! ## Preservation of the IRQ invariant -/

theorem IRQInv_setInterrupt (v : VIA) (i : Nat) : IRQInv (setInterrupt v i) :=
  setOrClearIRQ_inv _

theorem IRQInv_clearInterrupt (v : VIA) (i : Nat) : IRQInv (clearInterrupt v i) :=
  setOrClearIRQ_inv _

theorem IRQInv_Clock (v : VIA) (hv : IRQInv v) : IRQInv (Clock v) := by
  by_cases h0 : v.timer1Counter = 0
  · rw [Clock_of_zero v h0]; exact hv
  by_cases h1 : v.timer1Counter = 1
  · rw [Clock_of_one v h1]
    split
    · exact IRQInv_of_ifr_ie _ _ rfl rfl (IRQInv_setInterrupt { v with timer1Counter := 0 } INT_T1)
    · exact IRQInv_setInterrupt _ _
  · rw [Clock_of_gt_one v (by omega)]
    exact IRQInv_of_ifr_ie _ _ rfl rfl hv

theorem IRQInv_ctrlInSet (v : VIA) (c : Nat) (hv : IRQInv v) : IRQInv (ctrlInSet v c) := by
  unfold ctrlInSet
  split_ifs <;> first | exact IRQInv_setInterrupt _ _ | exact hv

theorem IRQInv_ctrlEdge (v : VIA) (c m tr : Nat) (hv : IRQInv v) :
    IRQInv (ctrlEdge v c m tr) := by
  unfold ctrlEdge
  simp only []
  by_cases a : v.pcr &&& m = 0 ∧ tr = HI_TO_LO
  · rw [if_pos a]
    split
    · exact IRQInv_ctrlInSet _ c (IRQInv_ctrlInSet v c hv)
    · exact IRQInv_ctrlInSet v c hv
  · rw [if_neg a]
    split
    · exact IRQInv_ctrlInSet v c hv
    · exact hv

theorem IRQInv_CtrlIn (v : VIA) (c : Nat) (t : Bool) (hv : IRQInv v) :
    IRQInv (CtrlIn v c t) := by
  unfold CtrlIn
  split
  · exact hv
  · simp only []
    generalize (if t = true then LO_TO_HI else HI_TO_LO) = tr
    split_ifs <;>
      first
      | exact hv
      | exact IRQInv_of_ifr_ie _ _ rfl rfl (IRQInv_ctrlEdge v c _ tr hv)

theorem IRQInv_In (v : VIA) (p e : Nat) (hv : IRQInv v) : IRQInv (In v p e) := by
  unfold In
  split_ifs
  · exact IRQInv_of_ifr_ie _ _ rfl rfl hv
  · exact IRQInv_of_ifr_ie _ _ rfl rfl hv
  · exact hv

theorem IRQInv_ReadRegister (v : VIA) (r : Nat) (hv : IRQInv v) :
    IRQInv (ReadRegister v r).1 := by
  unfold ReadRegister
  by_cases h0 : r = PORT_B
  · rw [if_pos h0]
    dsimp only []
    split <;> exact IRQInv_clearInterrupt _ _
  rw [if_neg h0]
  by_cases h1 : r = PORT_A
  · rw [if_pos h1]
    dsimp only []
    split <;> exact IRQInv_clearInterrupt _ _
  rw [if_neg h1]
  by_cases h2 : r = PORT_B_DIR
  · rw [if_pos h2]
    exact hv
  rw [if_neg h2]
  by_cases h3 : r = PORT_A_DIR
  · rw [if_pos h3]
    exact hv
  rw [if_neg h3]
  by_cases h4 : r = TIMER_1_LOW
  · rw [if_pos h4]
    exact IRQInv_clearInterrupt _ _
  rw [if_neg h4]
  by_cases h5 : r = TIMER_1_HIGH
  · rw [if_pos h5]
    exact hv
  rw [if_neg h5]
  by_cases h6 : r = TIMER_1_LATCH_LOW
  · rw [if_pos h6]
    exact hv
  rw [if_neg h6]
  by_cases h7 : r = TIMER_1_LATCH_HIGH
  · rw [if_pos h7]
    exact hv
  rw [if_neg h7]
  by_cases h8 : r = AUXILLERY_CTRL
  · rw [if_pos h8]
    exact hv
  rw [if_neg h8]
  by_cases h9 : r = PERIPHERAL_CTRL
  · rw [if_pos h9]
    exact hv
  rw [if_neg h9]
  by_cases h10 : r = INT_FLAGS
  · rw [if_pos h10]
    exact hv
  rw [if_neg h10]
  by_cases h11 : r = INT_ENABLE
  · rw [if_pos h11]
    exact hv
  rw [if_neg h11]
  exact hv

theorem IRQInv_condClear (v : VIA) (d m : Nat) (hv : IRQInv v) :
    IRQInv (if d &&& m ≠ 0 then clearInterrupt v m else v) := by
  split
  · exact IRQInv_clearInterrupt _ _
  · exact hv

theorem IRQInv_writeIntFlags (v : VIA) (d : Nat) (hv : IRQInv v) :
    IRQInv (writeIntFlags v d) := by
  unfold writeIntFlags
  exact IRQInv_condClear _ d INT_CB1
    (IRQInv_condClear _ d INT_CB2 (IRQInv_condClear _ d INT_CA1 (IRQInv_condClear v d INT_CA2 hv)))

theorem IRQInv_WriteRegister (v : VIA) (r d : Nat) (hr : r ≠ INT_ENABLE) (hv : IRQInv v) :
    IRQInv (WriteRegister v r d) := by
  unfold WriteRegister
  by_cases h0 : r = PORT_B
  · rw [if_pos h0]
    dsimp only []
    refine IRQInv_of_ifr_ie _ _ rfl rfl ?_
    split <;> exact IRQInv_clearInterrupt _ _
  rw [if_neg h0]
  by_cases h1 : r = PORT_B_DIR
  · rw [if_pos h1]
    exact IRQInv_of_ifr_ie _ _ rfl rfl hv
  rw [if_neg h1]
  by_cases h2 : r = PORT_A
  · rw [if_pos h2]
    dsimp only []
    refine IRQInv_of_ifr_ie _ _ rfl rfl ?_
    split <;> exact IRQInv_clearInterrupt _ _
  rw [if_neg h2]
  by_cases h3 : r = PORT_A_DIR
  · rw [if_pos h3]
    exact IRQInv_of_ifr_ie _ _ rfl rfl hv
  rw [if_neg h3]
  by_cases h4 : r = TIMER_1_LOW
  · rw [if_pos h4]
    exact IRQInv_of_ifr_ie _ _ rfl rfl hv
  rw [if_neg h4]
  by_cases h5 : r = TIMER_1_HIGH
  · rw [if_pos h5]
    exact IRQInv_of_ifr_ie _ _ rfl rfl (IRQInv_clearInterrupt _ _)
  rw [if_neg h5]
  by_cases h6 : r = TIMER_1_LATCH_LOW
  · rw [if_pos h6]
    exact IRQInv_of_ifr_ie _ _ rfl rfl hv
  rw [if_neg h6]
  by_cases h7 : r = TIMER_1_LATCH_HIGH
  · rw [if_pos h7]
    exact IRQInv_clearInterrupt _ _
  rw [if_neg h7]
  by_cases h8 : r = AUXILLERY_CTRL
  · rw [if_pos h8]
    exact IRQInv_of_ifr_ie _ _ rfl rfl hv
  rw [if_neg h8]
  by_cases h9 : r = PERIPHERAL_CTRL
  · rw [if_pos h9]
    exact IRQInv_of_ifr_ie _ _ rfl rfl hv
  rw [if_neg h9]
  by_cases h10 : r = INT_FLAGS
  · rw [if_pos h10]
    exact IRQInv_writeIntFlags v d hv
  rw [if_neg h10]
  by_cases h11 : r = INT_ENABLE
  · rw [if_pos h11]
    exact absurd h11 hr
  rw [if_neg h11]
  exact hv

/-- On a merged line `ToTTL` is the negation of `ToBool`. -/
theorem orLine_ttl (x y : IEEEBool) :
    (if x = .TRUE ∨ y = .TRUE then IEEEBool.TRUE else IEEEBool.FALSE).ToTTL =
      !(if x = .TRUE ∨ y = .TRUE then IEEEBool.TRUE else IEEEBool.FALSE).ToBool := by
  cases x <;> cases y <;> rfl

/-! ## The claims -/

/-- C1 (code defect, evaluated at the failing input): the IRQ aggregation invariant does not
hold after every step.  From the zero state a CA1 high-to-low edge raises the CA1 flag while
IE is 0; the write IE = 0x82 then enables CA1 but, unlike `setInterrupt` and
`clearInterrupt`, never calls `setOrClearIRQ`: IFR = 0x02 and IE = 0x02, yet IFR bit 7 is
clear. -/
theorem irq_invariant_broken_by_ie_write :
    (run (VIA.zero 0) irqBreakOps).ifr = 0x02 ∧ (run (VIA.zero 0) irqBreakOps).ie = 0x02 ∧
    CheckInterrupt (run (VIA.zero 0) irqBreakOps) = false ∧
    ¬ IRQInv (run (VIA.zero 0) irqBreakOps) := by
  decide

/-- C2: in every state with no flag pending (low seven IFR bits clear, IFR a byte), CA1
enabled in IE, PCR bit 0 clear and the stored CA1 level high, `CtrlIn(CA1, low)` leaves
IFR = 0x82 with `CheckInterrupt` true, and a following `ReadRegister(PORT_A)` leaves
IFR = 0x00 with `CheckInterrupt` false. -/
theorem ca1_irq_scenario (v : VIA) (hifr : v.ifr < 256) (hflag : v.ifr &&& 0x7f = 0)
    (hie : v.ie &&& INT_CA1 ≠ 0) (hpcr : v.pcr &&& PCR_CA1_CTRL = 0) (hca1 : v.ca1 = true) :
    (CtrlIn v CTRL_CA1 false).ifr = 0x82 ∧ CheckInterrupt (CtrlIn v CTRL_CA1 false) = true ∧
    (ReadRegister (CtrlIn v CTRL_CA1 false) PORT_A).1.ifr = 0x00 ∧
    CheckInterrupt (ReadRegister (CtrlIn v CTRL_CA1 false) PORT_A).1 = false := by
  have h0 : v.ifr = 0 ∨ v.ifr = 128 := by
    have := Nat.and_pow_two_sub_one_eq_mod v.ifr 7
    norm_num at this
    omega
  have hie1 : v.ie.testBit 1 = true := (and_two_pow_ne_zero_iff v.ie 1).1 hie
  have hpcr1 : v.pcr % 2 = 0 := by simpa using hpcr
  have hirq : irqOf (v.ifr ||| INT_CA1) v.ie = 0x82 := by
    rw [irqOf_of_enabled _ _ 1 (by decide) _ hie1]
    · rcases h0 with h | h <;> rw [h] <;> decide
    · rw [Nat.testBit_or]
      have : Nat.testBit INT_CA1 1 = true := by decide
      simp [this]
  have hstep : CtrlIn v CTRL_CA1 false = { v with ifr := 0x82, ca1 := false } := by
    simp [CtrlIn, ctrlCurrent, ctrlEdge, ctrlInSet, hca1, hpcr1, setInterrupt_eq, hirq]
  have h1 : irqOf (0x82 &&& bnot INT_CA1) v.ie = 0 := irqOf_of_low_zero _ _ (by decide)
  have h2 : irqOf (0 &&& bnot INT_CA2) v.ie = 0 := irqOf_of_low_zero _ _ (by decide)
  have hread : (ReadRegister { v with ifr := 0x82, ca1 := false } PORT_A).1.ifr = 0 := by
    simp only [ReadRegister, clearInterrupt_eq, h1, h2]
    simp
  rw [hstep]
  refine ⟨rfl, ?_, hread, ?_⟩
  · simp [CheckInterrupt]
  · simp [CheckInterrupt, hread]

/-- C2 at the scenario of the spec: from the zero state, IE = 0x82 then IE = 0xC2 leave
IE = 0x42; after CA1 goes high and then low IFR = 0x82 and the interrupt line is up; reading
Port A leaves IFR = 0x00 and the line down. -/
theorem ca1_irq_scenario_witness :
    (run (VIA.zero 0) ca1ScenarioOps).ie = 0x42 ∧
    (CtrlIn (run (VIA.zero 0) ca1ScenarioOps) CTRL_CA1 false).ifr = 0x82 ∧
    CheckInterrupt (CtrlIn (run (VIA.zero 0) ca1ScenarioOps) CTRL_CA1 false) = true ∧
    (ReadRegister (CtrlIn (run (VIA.zero 0) ca1ScenarioOps) CTRL_CA1 false) PORT_A).1.ifr
      = 0x00 ∧
    CheckInterrupt
      (ReadRegister (CtrlIn (run (VIA.zero 0) ca1ScenarioOps) CTRL_CA1 false) PORT_A).1
      = false :=
  ⟨by decide,
    ca1_irq_scenario (run (VIA.zero 0) ca1ScenarioOps) (by decide) (by decide) (by decide)
      (by decide) (by decide)⟩

/-- C3 (code defect, evaluated at the failing input): with IE = 0x42 the write of 0x40 (bit 7
clear, "clear T1") leaves IE = 0x3F, where clearing the selected enable gives
`(0x42 & ~0x40) & 0x7F = 0x02`: the `// Clear` branch stores `(^ie | ^data) & 0x7f`. -/
theorem ie_clear_write_sets_bits :
    (run (VIA.zero 0) [.write INT_ENABLE 0xC2]).ie = 0x42 ∧
    (run (VIA.zero 0) ieClearOps).ie = 0x3F ∧
    (0x42 &&& bnot 0x40) &&& 0x7f = 0x02 := by
  decide

/-- C4: a write of the IE register with data bit 7 set leaves IE = (old IE | d) & 0x7F; bit 7
of IE is never stored. -/
theorem ie_set_write (v : VIA) (d : Nat) (hd : d &&& 0x80 ≠ 0) :
    (WriteRegister v INT_ENABLE d).ie = (v.ie ||| d) &&& 0x7f ∧
    (WriteRegister v INT_ENABLE d).ie &&& 0x80 = 0 ∧
    (WriteRegister v INT_ENABLE d).ie < 128 := by
  have h : (WriteRegister v INT_ENABLE d).ie = (v.ie ||| d) &&& 0x7f := by
    simp only [WriteRegister, hd]
    simp
  rw [h]
  refine ⟨rfl, ?_, ?_⟩
  · apply Nat.eq_of_testBit_eq
    intro i
    simp only [Nat.testBit_and, testBit_0x7f, testBit_0x80, Nat.zero_testBit]
    by_cases h7 : 7 = i
    · subst h7; simp
    · simp [h7]
  · exact Nat.and_lt_two_pow _ (by decide : (0x7f : Nat) < 2 ^ 7)

/-- C4 at a concrete input: with IE = 0x02, writing 0xC0 leaves IE = 0x42. -/
theorem ie_set_write_witness :
    (0xC0 : Nat) &&& 0x80 ≠ 0 ∧
    (WriteRegister { VIA.zero 0 with ie := 0x02 } INT_ENABLE 0xC0).ie
      = (0x02 ||| 0xC0) &&& 0x7f ∧
    (WriteRegister { VIA.zero 0 with ie := 0x02 } INT_ENABLE 0xC0).ie &&& 0x80 = 0 ∧
    (WriteRegister { VIA.zero 0 with ie := 0x02 } INT_ENABLE 0xC0).ie < 128 :=
  ⟨by decide, ie_set_write { VIA.zero 0 with ie := 0x02 } 0xC0 (by decide)⟩

/-- C5: for both ports, after writing direction `d`, writing the port with `p` and merging
the external byte `e` with `In`, both `ReadRegister` and `PeekRegister` of the port return
`(e & ~d) | (p & d)`. -/
theorem port_merge (v : VIA) (d p e : Nat) :
    (ReadRegister (In (WriteRegister (WriteRegister v PORT_A_DIR d) PORT_A p) PORT_A e)
        PORT_A).2 = (e &&& bnot d) ||| (p &&& d) ∧
    PeekRegister (In (WriteRegister (WriteRegister v PORT_A_DIR d) PORT_A p) PORT_A e)
        PORT_A = (e &&& bnot d) ||| (p &&& d) ∧
    (ReadRegister (In (WriteRegister (WriteRegister v PORT_B_DIR d) PORT_B p) PORT_B e)
        PORT_B).2 = (e &&& bnot d) ||| (p &&& d) ∧
    PeekRegister (In (WriteRegister (WriteRegister v PORT_B_DIR d) PORT_B p) PORT_B e)
        PORT_B = (e &&& bnot d) ||| (p &&& d) := by
  refine ⟨?_, ?_, ?_, ?_⟩ <;>
    simp [ReadRegister, PeekRegister, In, WriteRegister, clearInterrupt_eq, apply_ite]

/-- C6 fails as stated: with Port A all inputs (direction 0x00) and the latch holding the
merged external byte 0xFF, `WriteRegister(PORT_A, 0x00)` leaves the latch 0x00, not
`(0xFF & ~0x00) | (0x00 & 0x00) = 0xFF`. -/
theorem port_write_input_bits_counterexample :
    inputLatched.portA = 0xFF ∧ inputLatched.portADir = 0x00 ∧
    (WriteRegister inputLatched PORT_A 0x00).portA = 0x00 ∧
    (inputLatched.portA &&& bnot inputLatched.portADir) ||| (0x00 &&& inputLatched.portADir)
      = 0xFF ∧
    (WriteRegister inputLatched PORT_A 0x00).portA ≠
      (inputLatched.portA &&& bnot inputLatched.portADir) |||
        (0x00 &&& inputLatched.portADir) := by
  decide

/-- C6 as amended: a CPU write to a port register replaces the whole latch with the data
byte and re-derives the masked output `data & direction`; the direction register and the
other port's latch are untouched. -/
theorem port_write_replaces_latch (v : VIA) (data : Nat) :
    (WriteRegister v PORT_A data).portA = data ∧
    (WriteRegister v PORT_A data).portAOut = data &&& v.portADir ∧
    (WriteRegister v PORT_A data).portADir = v.portADir ∧
    (WriteRegister v PORT_A data).portB = v.portB ∧
    (WriteRegister v PORT_B data).portB = data ∧
    (WriteRegister v PORT_B data).portBOut = data &&& v.portBDir ∧
    (WriteRegister v PORT_B data).portBDir = v.portBDir ∧
    (WriteRegister v PORT_B data).portA = v.portA := by
  refine ⟨?_, ?_, ?_, ?_, ?_, ?_, ?_, ?_⟩ <;>
    simp [WriteRegister, clearInterrupt_eq, apply_ite]

/-- C7 (code defect, evaluated at the failing input): from the zero state, writing Port A =
0xFF and then Port A direction = 0xFF leaves `Out(PORT_A)` = 0x00 while latch AND direction
is 0xFF: the direction write does not re-derive the cached output. -/
theorem masked_output_stale_after_direction_write :
    Out (run (VIA.zero 0) staleOutOps) PORT_A = 0x00 ∧
    (run (VIA.zero 0) staleOutOps).portA &&& (run (VIA.zero 0) staleOutOps).portADir = 0xFF ∧
    ¬ OutInv (run (VIA.zero 0) staleOutOps) := by
  decide

/-- C8 fails as stated: with PCR = 0x02 (bit 3 clear, CA2 an input) and the CA2 flag up,
`ReadRegister(PORT_A)` leaves the CA2 flag up; with PCR = 0x08 (bit 3 set, CA2 an output)
and the CA2 flag up, it clears the flag. -/
theorem port_read_ca2_counterexample :
    ((run (VIA.zero 0) ca2IndependentOps).pcr &&& PCR_CA2_3 = 0 ∧
      (run (VIA.zero 0) ca2IndependentOps).ifr = 0x01 ∧
      (ReadRegister (run (VIA.zero 0) ca2IndependentOps) PORT_A).1.ifr = 0x01) ∧
    ((run (VIA.zero 0) ca2OutputOps).pcr &&& PCR_CA2_3 ≠ 0 ∧
      (run (VIA.zero 0) ca2OutputOps).ifr = 0x01 ∧
      (ReadRegister (run (VIA.zero 0) ca2OutputOps) PORT_A).1.ifr = 0x00) := by
  decide

/-- C8 as amended: `ReadRegister(PORT_A)` returns the Port A latch, changes no field but
IFR, clears the CA1 flag (bit 1) always, clears the CA2 flag (bit 0) exactly when PCR bit 1
is clear, and keeps bits 2-6; `ReadRegister(PORT_B)` returns the Port B latch, changes no
field but IFR, clears CB1 (bit 4) always, clears CB2 (bit 3) exactly when PCR bit 5 is
clear, and keeps the other bits among 0-6. -/
theorem port_read_flag_clearing (v : VIA) :
    ((ReadRegister v PORT_A).2 = v.portA ∧
      (ReadRegister v PORT_A).1 = { v with ifr := (ReadRegister v PORT_A).1.ifr } ∧
      (ReadRegister v PORT_A).1.ifr.testBit 1 = false ∧
      (ReadRegister v PORT_A).1.ifr.testBit 0 = (v.ifr.testBit 0 && v.pcr.testBit 1) ∧
      (∀ i, 2 ≤ i → i < 7 → (ReadRegister v PORT_A).1.ifr.testBit i = v.ifr.testBit i)) ∧
    ((ReadRegister v PORT_B).2 = v.portB ∧
      (ReadRegister v PORT_B).1 = { v with ifr := (ReadRegister v PORT_B).1.ifr } ∧
      (ReadRegister v PORT_B).1.ifr.testBit 4 = false ∧
      (ReadRegister v PORT_B).1.ifr.testBit 3 = (v.ifr.testBit 3 && v.pcr.testBit 5) ∧
      (∀ i, i < 7 → i ≠ 3 → i ≠ 4 →
        (ReadRegister v PORT_B).1.ifr.testBit i = v.ifr.testBit i)) := by
  have hA : (ReadRegister v PORT_A).1 = { v with ifr :=
      (if v.pcr &&& PCR_CA2_1 = 0 then
        irqOf (irqOf (v.ifr &&& bnot INT_CA1) v.ie &&& bnot INT_CA2) v.ie
      else irqOf (v.ifr &&& bnot INT_CA1) v.ie) } := by
    simp only [ReadRegister, clearInterrupt_eq]
    by_cases hp : v.pcr &&& PCR_CA2_1 = 0 <;> simp [hp]
  have hB : (ReadRegister v PORT_B).1 = { v with ifr :=
      (if v.pcr &&& PCR_CB2_1 = 0 then
        irqOf (irqOf (v.ifr &&& bnot INT_CB1) v.ie &&& bnot INT_CB2) v.ie
      else irqOf (v.ifr &&& bnot INT_CB1) v.ie) } := by
    simp only [ReadRegister, clearInterrupt_eq]
    by_cases hp : v.pcr &&& PCR_CB2_1 = 0 <;> simp [hp]
  have bitsA := readPort_ifr_bits v.ifr v.ie (v.pcr &&& PCR_CA2_1) INT_CA1 INT_CA2 1 0
    (fun i => @Nat.testBit_two_pow 1 i) (fun i => @Nat.testBit_two_pow 0 i)
  have bitsB := readPort_ifr_bits v.ifr v.ie (v.pcr &&& PCR_CB2_1) INT_CB1 INT_CB2 4 3
    (fun i => @Nat.testBit_two_pow 4 i) (fun i => @Nat.testBit_two_pow 3 i)
  have pA : decide (v.pcr &&& PCR_CA2_1 = 0) = !v.pcr.testBit 1 := by
    have := and_two_pow_eq_zero_iff v.pcr 1
    by_cases h : v.pcr.testBit 1 = true
    · simp [h]; exact (and_two_pow_ne_zero_iff v.pcr 1).2 h
    · simp at h; simp [h]; exact this.2 h
  have pB : decide (v.pcr &&& PCR_CB2_1 = 0) = !v.pcr.testBit 5 := by
    have := and_two_pow_eq_zero_iff v.pcr 5
    by_cases h : v.pcr.testBit 5 = true
    · simp [h]; exact (and_two_pow_ne_zero_iff v.pcr 5).2 h
    · simp at h; simp [h]; exact this.2 h
  refine ⟨⟨?_, ?_, ?_, ?_, ?_⟩, ⟨?_, ?_, ?_, ?_, ?_⟩⟩
  · simp [ReadRegister, clearInterrupt_eq, apply_ite]
  · rw [hA]
  · rw [hA]; simp only []; rw [bitsA 1 (by decide)]; simp
  · rw [hA]; simp only []; rw [bitsA 0 (by decide), pA]; simp
  · intro i h2 h7
    rw [hA]; simp only []; rw [bitsA i h7]
    have h1 : ¬ (1 = i) := by omega
    have h0 : ¬ (0 = i) := by omega
    simp [h1, h0]
  · simp [ReadRegister, clearInterrupt_eq, apply_ite]
  · rw [hB]
  · rw [hB]; simp only []; rw [bitsB 4 (by decide)]; simp
  · rw [hB]; simp only []; rw [bitsB 3 (by decide), pB]; simp
  · intro i h7 h3 h4
    rw [hB]; simp only []; rw [bitsB i h7]
    have h1 : ¬ (4 = i) := by omega
    have h0 : ¬ (3 = i) := by omega
    simp [h1, h0]

/-- C9: Timer 1 in continuous mode (ACR bit 6 set), T1 flag clear, counter just loaded with
N >= 1 from the latches: after k < N ticks the counter is N - k and the flag is clear; after
N ticks the flag is set and the counter is N again; the flag is up and the counter is N
after every multiple of N ticks; and once the flag has been acknowledged by a read of
T1 LOW it stays clear for the next N - 1 ticks and is raised again on tick N. -/
theorem timer1_continuous (v : VIA) (N : Nat) (hN : 1 ≤ N) (hacr : v.acr &&& BIT_6 ≠ 0)
    (hflag : v.ifr &&& INT_T1 = 0) (hload : setTimer1Counter v = v)
    (hcnt : v.timer1Counter = N) :
    (∀ k, k < N →
      (clockN k v).timer1Counter = N - k ∧ (clockN k v).ifr &&& INT_T1 = 0) ∧
    ((clockN N v).ifr &&& INT_T1 ≠ 0 ∧ (clockN N v).timer1Counter = N) ∧
    (∀ j, 1 ≤ j →
      (clockN (j * N) v).ifr &&& INT_T1 ≠ 0 ∧ (clockN (j * N) v).timer1Counter = N) ∧
    (∀ k, k < N →
      (clockN k (ReadRegister (clockN N v) TIMER_1_LOW).1).timer1Counter = N - k ∧
      (clockN k (ReadRegister (clockN N v) TIMER_1_LOW).1).ifr &&& INT_T1 = 0) ∧
    ((clockN N (ReadRegister (clockN N v) TIMER_1_LOW).1).ifr &&& INT_T1 ≠ 0 ∧
      (clockN N (ReadRegister (clockN N v) TIMER_1_LOW).1).timer1Counter = N) := by
  subst hcnt
  have hl := congrArg VIA.timer1Counter hload
  simp only [setTimer1Counter] at hl
  have hcyc := continuous_cycle v hacr hload hN
  -- the state after the flag has been acknowledged by a read of T1 LOW
  have hack : (ReadRegister (clockN v.timer1Counter v) TIMER_1_LOW).1 =
      { v with ifr := irqOf (irqOf (v.ifr ||| INT_T1) v.ie &&& bnot INT_T1) v.ie } := by
    rw [clockN_period v hacr hload hN]
    simp [ReadRegister, setInterrupt_eq, clearInterrupt_eq]
  have hcyc2 := continuous_cycle
    { v with ifr := irqOf (irqOf (v.ifr ||| INT_T1) v.ie &&& bnot INT_T1) v.ie } hacr
    (by simp [setTimer1Counter, hl]) hN
  refine ⟨?_, ⟨hcyc.2.2.2, hcyc.2.2.1⟩, ?_, ?_, ?_⟩
  · intro k hk
    rw [clockN_countdown k v hk]
    exact ⟨rfl, hflag⟩
  · intro j hj
    have h := continuous_multiples v hacr hload hN j
    exact ⟨h.2.2.2 hj, h.2.2.1⟩
  · intro k hk
    rw [hack, clockN_countdown k
      { v with ifr := irqOf (irqOf (v.ifr ||| INT_T1) v.ie &&& bnot INT_T1) v.ie } hk]
    exact ⟨rfl, t1_flag_clear _ _⟩
  · rw [hack]
    exact ⟨hcyc2.2.2.2, hcyc2.2.2.1⟩

set_option maxRecDepth 10000 in
/-- C9 at the scenario of the spec: latches LOW = 0x10, HIGH = 0x00, ACR = 0x40: the counter
is 16, the flag is clear for the first 15 ticks, set at tick 16 with the counter back at 16,
and up at tick 32. -/
theorem timer1_continuous_witness :
    (run (VIA.zero 0) timerOps).timer1Counter = 16 ∧
    (∀ k, k < 16 → (clockN k (run (VIA.zero 0) timerOps)).ifr &&& INT_T1 = 0) ∧
    (clockN 16 (run (VIA.zero 0) timerOps)).ifr &&& INT_T1 ≠ 0 ∧
    (clockN 16 (run (VIA.zero 0) timerOps)).timer1Counter = 16 ∧
    (clockN 32 (run (VIA.zero 0) timerOps)).ifr &&& INT_T1 ≠ 0 :=
  have h := timer1_continuous (run (VIA.zero 0) timerOps) 16 (by decide) (by decide)
    (by decide) rfl rfl
  ⟨by decide, fun k hk => (h.1 k hk).2, h.2.1.1, h.2.1.2, (h.2.2.1 2 (by decide)).1⟩

/-- C10: in either ACR mode `Clock` sets the T1 flag exactly when the counter was 1 before
the tick and otherwise leaves IFR unchanged; with the counter at 0 it changes nothing; so
in one-shot mode (ACR bit 6 clear) a timer holding N >= 1 keeps IFR for N - 1 ticks, sets
the flag on tick N with the counter at 0, and no later tick changes the state. -/
theorem timer1_flag_once_per_underflow (v : VIA) :
    (v.timer1Counter = 1 →
      (Clock v).ifr = (setInterrupt v INT_T1).ifr ∧ (Clock v).ifr &&& INT_T1 ≠ 0) ∧
    (v.timer1Counter ≠ 1 → (Clock v).ifr = v.ifr) ∧
    (v.timer1Counter = 0 → Clock v = v) ∧
    (v.acr &&& BIT_6 = 0 → 1 ≤ v.timer1Counter →
      (∀ k, k < v.timer1Counter →
        (clockN k v).ifr = v.ifr ∧ (clockN k v).timer1Counter = v.timer1Counter - k) ∧
      (clockN v.timer1Counter v).ifr = (setInterrupt v INT_T1).ifr ∧
      (clockN v.timer1Counter v).ifr &&& INT_T1 ≠ 0 ∧
      (clockN v.timer1Counter v).timer1Counter = 0 ∧
      (∀ m, v.timer1Counter ≤ m → clockN m v = clockN v.timer1Counter v)) := by
  refine ⟨?_, ?_, ?_, ?_⟩
  · intro h1
    have e : (Clock v).ifr = (setInterrupt v INT_T1).ifr := by
      rw [Clock_of_one v h1]
      by_cases hacr : v.acr &&& BIT_6 = 0 <;> simp [hacr, setInterrupt_eq, setTimer1Counter]
    refine ⟨e, ?_⟩
    rw [e, setInterrupt_eq]
    exact t1_flag_set _ _
  · intro hne
    by_cases h0 : v.timer1Counter = 0
    · rw [Clock_of_zero v h0]
    · rw [Clock_of_gt_one v (by omega)]
  · exact Clock_of_zero v
  · intro hacr hpos
    have hu := oneshot_underflow v hacr hpos
    refine ⟨?_, ?_, ?_, ?_, ?_⟩
    · intro k hk
      rw [clockN_countdown k v hk]
      exact ⟨rfl, rfl⟩
    · rw [hu, setInterrupt_eq, setInterrupt_eq]
    · rw [hu, setInterrupt_eq]
      exact t1_flag_set _ _
    · rw [hu, setInterrupt_eq]
    · intro m hm
      obtain ⟨d, rfl⟩ : ∃ d, m = v.timer1Counter + d := ⟨m - v.timer1Counter, by omega⟩
      rw [clockN_add]
      apply clockN_of_zero
      rw [hu, setInterrupt_eq]

/-- C11: for every state and every byte h (h = 0 included), with the low latch a byte, after
`WriteRegister(TIMER_1_HIGH, h)` the high latch and high counter register are h, the 16-bit
counter is h * 256 + low latch, the low counter register equals the low latch, the T1 flag is
clear, flags 0-5 are unchanged, and IFR bit 7 agrees with the remaining flags and IE. -/
theorem t1_high_write_reloads (v : VIA) (h : Nat) (hh : h < 256) (hl : v.timer1LatchLow < 256) :
    (WriteRegister v TIMER_1_HIGH h).timer1LatchHigh = h ∧
    (WriteRegister v TIMER_1_HIGH h).timer1High = h ∧
    (WriteRegister v TIMER_1_HIGH h).timer1Counter = h * 256 + v.timer1LatchLow ∧
    (WriteRegister v TIMER_1_HIGH h).timer1Low = v.timer1LatchLow ∧
    (WriteRegister v TIMER_1_HIGH h).timer1LatchLow = v.timer1LatchLow ∧
    (WriteRegister v TIMER_1_HIGH h).ifr &&& INT_T1 = 0 ∧
    (∀ i, i < 6 → (WriteRegister v TIMER_1_HIGH h).ifr.testBit i = v.ifr.testBit i) ∧
    IRQInv (WriteRegister v TIMER_1_HIGH h) := by
  have hw : WriteRegister v TIMER_1_HIGH h =
      { v with timer1High := h, timer1LatchHigh := h, timer1Low := v.timer1LatchLow,
               ifr := irqOf (v.ifr &&& bnot INT_T1) v.ie,
               timer1Counter := h * 256 + v.timer1LatchLow } := by
    simp [WriteRegister, clearInterrupt_eq, setTimer1Counter, latch_word h _ hh hl]
  rw [hw]
  refine ⟨rfl, rfl, rfl, rfl, rfl, t1_flag_clear _ _, ?_, ?_⟩
  · intro i hi
    simp only []
    rw [testBit_irqOf_low _ _ i (by omega), Nat.testBit_and, testBit_bnot]
    have h6 : Nat.testBit INT_T1 i = false := by
      have := @Nat.testBit_two_pow 6 i
      rw [show INT_T1 = 2 ^ 6 from rfl, this]
      simp; omega
    have h8 : i < 8 := by omega
    simp [h6, h8]
  · have := setOrClearIRQ_inv { v with ifr := v.ifr &&& bnot INT_T1 }
    rw [setOrClearIRQ_eq_irqOf] at this
    exact IRQInv_of_ifr_ie _ _ rfl rfl this

/-- C11 at h = 0: with the T1 flag pending and the low latch 0x10, writing 0 to T1 HIGH
loads the counter with 0x10 and leaves IFR = 0. -/
theorem t1_high_write_reloads_witness :
    t1Pending.ifr &&& INT_T1 ≠ 0 ∧
    (WriteRegister t1Pending TIMER_1_HIGH 0).timer1Counter = 0x10 ∧
    (WriteRegister t1Pending TIMER_1_HIGH 0).ifr = 0 :=
  have h := t1_high_write_reloads t1Pending 0 (by decide) (by decide)
  ⟨by decide, h.2.2.1, by decide⟩

set_option maxRecDepth 10000 in
/-- C12 (code defect, evaluated at the failing input): after T1 LOW = 0x10, T1 HIGH = 0x00
and one `Clock` the 16-bit counter is 0x000F but `ReadRegister(TIMER_1_LOW)` still returns
0x10; and a lone write of T1 LOW = 0x10 makes the register read 0x10 while the counter is 0.
`Clock` decrements `timer1Counter` only. -/
theorem t1_registers_stale_after_clock :
    (run (VIA.zero 0) t1TickOps).timer1Counter = 0x000F ∧
    (ReadRegister (run (VIA.zero 0) t1TickOps) TIMER_1_LOW).2 = 0x10 ∧
    (run (VIA.zero 0) t1TickOps).timer1Counter % 256 = 0x0F ∧
    (ReadRegister (run (VIA.zero 0) [.write TIMER_1_LOW 0x10]) TIMER_1_LOW).2 = 0x10 ∧
    (run (VIA.zero 0) [.write TIMER_1_LOW 0x10]).timer1Counter = 0 := by
  decide

/-- C13: `CtrlIn(CA1, t)` always leaves the stored CA1 level equal to t; it raises the CA1
flag (IFR becomes what `setInterrupt` gives, bit 1 set) when t differs from the stored level
and the direction matches PCR bit 0 (bit clear and high-to-low, or bit set and low-to-high),
and in every other case leaves IFR unchanged. -/
theorem ca1_edge_detection (v : VIA) (t : Bool) :
    (CtrlIn v CTRL_CA1 t).ca1 = t ∧
    ((t ≠ v.ca1 ∧ ((v.pcr &&& PCR_CA1_CTRL = 0 ∧ t = false) ∨
        (v.pcr &&& PCR_CA1_CTRL ≠ 0 ∧ t = true))) →
      (CtrlIn v CTRL_CA1 t).ifr = (setInterrupt v INT_CA1).ifr ∧
      (CtrlIn v CTRL_CA1 t).ifr.testBit 1 = true) ∧
    (¬ (t ≠ v.ca1 ∧ ((v.pcr &&& PCR_CA1_CTRL = 0 ∧ t = false) ∨
        (v.pcr &&& PCR_CA1_CTRL ≠ 0 ∧ t = true))) →
      (CtrlIn v CTRL_CA1 t).ifr = v.ifr) := by
  have hbit := ca1_flag_after_set v
  rw [setInterrupt_eq] at hbit
  cases t <;> rcases Nat.mod_two_eq_zero_or_one v.pcr with hp | hp <;> cases hc : v.ca1 <;>
    simp [CtrlIn, ctrlCurrent, ctrlEdge, ctrlInSet, setInterrupt_eq, hp, hc, hbit]

/-- C14 (code defect, evaluated at the failing inputs): with the polarity bit set (PCR = 0x10
for CB1, 0x04 for CA2, 0x40 for CB2; CA2 and CB2 in input mode) a low-to-high transition of
the line leaves IFR = 0x00: the test `v.pcr & mask == 1` cannot succeed for a mask above
bit 0. -/
theorem positive_edge_never_raises_flag :
    ((WriteRegister (VIA.zero 0) PERIPHERAL_CTRL 0x10).pcr &&& PCR_CB1_CTRL ≠ 0 ∧
      (WriteRegister (VIA.zero 0) PERIPHERAL_CTRL 0x10).cb1 = false ∧
      (CtrlIn (WriteRegister (VIA.zero 0) PERIPHERAL_CTRL 0x10) CTRL_CB1 true).ifr = 0x00 ∧
      (CtrlIn (WriteRegister (VIA.zero 0) PERIPHERAL_CTRL 0x10) CTRL_CB1 true).cb1 = true) ∧
    ((WriteRegister (VIA.zero 0) PERIPHERAL_CTRL 0x04).pcr &&& PCR_CA2_3 = 0 ∧
      (WriteRegister (VIA.zero 0) PERIPHERAL_CTRL 0x04).pcr &&& PCR_CA2_2 ≠ 0 ∧
      (CtrlIn (WriteRegister (VIA.zero 0) PERIPHERAL_CTRL 0x04) CTRL_CA2 true).ifr = 0x00) ∧
    ((WriteRegister (VIA.zero 0) PERIPHERAL_CTRL 0x40).pcr &&& PCR_CB2_3 = 0 ∧
      (WriteRegister (VIA.zero 0) PERIPHERAL_CTRL 0x40).pcr &&& PCR_CB2_2 ≠ 0 ∧
      (CtrlIn (WriteRegister (VIA.zero 0) PERIPHERAL_CTRL 0x40) CTRL_CB2 true).ifr = 0x00) := by
  decide

/-- C15: after `WriteRegister(INT_FLAGS, d)` the low seven IFR bits are
`old IFR & ~(d & 0x1B) & 0x7F` (only the CA2, CA1, CB2, CB1 flags selected by d are cleared),
and no field other than IFR changes. -/
theorem ifr_write_one_to_clear (v : VIA) (d : Nat) :
    (WriteRegister v INT_FLAGS d).ifr &&& 0x7f = v.ifr &&& bnot (d &&& 0x1B) &&& 0x7f ∧
    WriteRegister v INT_FLAGS d = { v with ifr := (WriteRegister v INT_FLAGS d).ifr } := by
  have hw : WriteRegister v INT_FLAGS d = writeIntFlags v d := by simp [WriteRegister]
  rw [hw]
  refine ⟨?_, writeIntFlags_eq v d⟩
  apply Nat.eq_of_testBit_eq
  intro i
  simp only [Nat.testBit_and, testBit_0x7f, testBit_bnot]
  by_cases h7 : i < 7
  · have h8 : i < 8 := by omega
    rw [writeIntFlags_testBit v d i h7]
    simp [h7, h8]
  · simp [h7]

set_option maxRecDepth 10000 in
/-- C16 fails as stated: with the latches holding 0x10 and 0x27, `ReadRegister` returns them
at offsets 6 and 7 while `PeekRegister` returns 0x00; its switch serves the registers its
callers peek (offsets 0-5 and 0xB-0xE) and has no case for the two latch registers. -/
theorem peek_misses_latch_registers :
    (ReadRegister (run (VIA.zero 0) latchOps) TIMER_1_LATCH_LOW).2 = 0x10 ∧
    PeekRegister (run (VIA.zero 0) latchOps) TIMER_1_LATCH_LOW = 0x00 ∧
    (ReadRegister (run (VIA.zero 0) latchOps) TIMER_1_LATCH_HIGH).2 = 0x27 ∧
    PeekRegister (run (VIA.zero 0) latchOps) TIMER_1_LATCH_HIGH = 0x00 ∧
    PeekRegister (run (VIA.zero 0) latchOps) TIMER_1_LATCH_LOW ≠
      (ReadRegister (run (VIA.zero 0) latchOps) TIMER_1_LATCH_LOW).2 := by
  decide

/-- C16 as amended: in every state `PeekRegister(r)` returns the byte `ReadRegister(r)` would
return for every offset other than the two latch registers, so for the offsets 0-5 and
0xB-0xE of the register map; at offsets 6 and 7 it returns 0.  `PeekRegister` yields a byte
only, so no field of the VIA changes. -/
theorem peek_matches_read_off_latches (v : VIA) :
    (∀ r, r ≠ TIMER_1_LATCH_LOW → r ≠ TIMER_1_LATCH_HIGH →
      PeekRegister v r = (ReadRegister v r).2) ∧
    PeekRegister v TIMER_1_LATCH_LOW = 0 ∧ PeekRegister v TIMER_1_LATCH_HIGH = 0 :=
  ⟨fun r h6 h7 => peek_eq_read v r h6 h7, rfl, rfl⟩

/-- C17 fails as stated: for a VIA at 0x1800 whose Port B latch holds 0x55, the address
0x1900 has offset 0x100, which is no register of the map, yet `Read` returns 0x55 and
`Write` stores into Port B: the offset is truncated to its low byte, here `PORT_B`. -/
theorem truncated_offset_counterexample :
    portBLoaded.Base = 0x1800 ∧ (0x1900 : Nat) - 0x1800 = 0x100 ∧
    (Read portBLoaded 0x1900).2 = 0x55 ∧
    (Write portBLoaded 0x1900 0xAA).portB = 0xAA ∧
    Write portBLoaded 0x1900 0xAA ≠ portBLoaded := by
  decide

/-- C17 as amended: when the decoded register index `Byte(addr - Base)` is not a defined
register (not in 0-7 or 0xB-0xE), `Read(addr)` returns 0 and leaves the state unchanged, and
`Write(addr, d)` leaves the state unchanged. -/
theorem undefined_register_access_inert (v : VIA) (addr d : Nat)
    (h : ¬ (regOf v addr ≤ 7 ∨ (0xB ≤ regOf v addr ∧ regOf v addr ≤ 0xE))) :
    Read v addr = (v, 0) ∧ Write v addr d = v := by
  have h0 : regOf v addr ≠ 0 := by omega
  have h1 : regOf v addr ≠ 1 := by omega
  have h2 : regOf v addr ≠ 2 := by omega
  have h3 : regOf v addr ≠ 3 := by omega
  have h4 : regOf v addr ≠ 4 := by omega
  have h5 : regOf v addr ≠ 5 := by omega
  have h6 : regOf v addr ≠ 6 := by omega
  have h7 : regOf v addr ≠ 7 := by omega
  have hb : regOf v addr ≠ 0xb := by omega
  have hc : regOf v addr ≠ 0xc := by omega
  have hd : regOf v addr ≠ 0xd := by omega
  have he : regOf v addr ≠ 0xe := by omega
  constructor
  · simp [Read, ReadRegister, h0, h1, h2, h3, h4, h5, h6, h7, hb, hc, hd, he]
  · simp [Write, WriteRegister, h0, h1, h2, h3, h4, h5, h6, h7, hb, hc, hd, he]

/-- C17 as amended, at offset 0xF of a VIA mapped at 0x1800. -/
theorem undefined_register_access_inert_witness :
    regOf (VIA.zero 0x1800) 0x180F = 0xF ∧
    Read (VIA.zero 0x1800) 0x180F = (VIA.zero 0x1800, 0) ∧
    Write (VIA.zero 0x1800) 0x180F 0xAA = VIA.zero 0x1800 :=
  ⟨by decide, undefined_register_access_inert (VIA.zero 0x1800) 0x180F 0xAA (by decide)⟩

/-- C18: the wired-OR merge of cable states is commutative and associative. -/
theorem wired_or_comm_assoc (a b c : IEEE488) :
    a.Or b = b.Or a ∧ a.Or (b.Or c) = (a.Or b).Or c := by
  constructor
  · simp only [IEEE488.Or, IEEE488.mk.injEq]
    refine ⟨?_, ?_, ?_, ?_, ?_, ?_, ?_, ?_, Nat.or_comm _ _⟩ <;>
      simp only [or_comm]
  · simp only [IEEE488.Or, orLine_assoc, Nat.or_assoc]

/-- C19: each of the eight lines of `a.Or(b)` is `TRUE` (asserted) when the line is `TRUE`
in a or in b and `FALSE` (negated) otherwise, so it is never `FLOATING`; a line merged with
`FLOATING` is that line with `FLOATING` collapsed to `FALSE`; the merged DIO byte is the
bitwise OR. -/
theorem wired_or_lines (a b : IEEE488) :
    (∀ f ∈ IEEE488.lines,
      f (a.Or b) = (if f a = .TRUE ∨ f b = .TRUE then IEEEBool.TRUE else IEEEBool.FALSE) ∧
      f (a.Or b) ≠ .FLOATING ∧
      (f b = .FLOATING → f (a.Or b) = (f a).collapse) ∧
      (f a = .FLOATING → f (a.Or b) = (f b).collapse)) ∧
    IEEE488.DIO (a.Or b) = a.DIO ||| b.DIO := by
  refine ⟨?_, rfl⟩
  intro f hf
  simp only [IEEE488.lines, List.mem_cons, List.mem_singleton, List.not_mem_nil, or_false] at hf
  rcases hf with rfl | rfl | rfl | rfl | rfl | rfl | rfl | rfl <;>
    exact ⟨rfl, orLine_facts _ _⟩

/-- C20 fails as stated: `ToTTL` maps `FLOATING` to false (low), not to true. -/
theorem toTTL_floating_is_low :
    IEEEBool.ToTTL .FLOATING = false ∧ IEEEBool.ToTTL .FLOATING ≠ true := by
  decide

/-- C20 as amended: `ToTTL` is defined on all three values, with `TRUE` (asserted) low,
`FALSE` (negated) high and `FLOATING` low: it is high exactly for `FALSE`.  On a line of a
merged bus state, the only values `ToTTL` is applied to, the line is never `FLOATING` and
`ToTTL` is the negation of `ToBool`. -/
theorem toTTL_values :
    IEEEBool.ToTTL .TRUE = false ∧ IEEEBool.ToTTL .FALSE = true ∧
    IEEEBool.ToTTL .FLOATING = false ∧
    (∀ x : IEEEBool, x.ToTTL = true ↔ x = .FALSE) ∧
    (∀ (a b : IEEE488), ∀ f ∈ IEEE488.lines,
      f (a.Or b) ≠ .FLOATING ∧ (f (a.Or b)).ToTTL = !(f (a.Or b)).ToBool) := by
  refine ⟨rfl, rfl, rfl, ?_, ?_⟩
  · intro x; cases x <;> decide
  · intro a b f hf
    simp only [IEEE488.lines, List.mem_cons, List.mem_singleton, List.not_mem_nil, or_false] at hf
    rcases hf with rfl | rfl | rfl | rfl | rfl | rfl | rfl | rfl <;>
      exact ⟨(orLine_facts _ _).1, orLine_ttl _ _⟩

/-- C21 fails as stated: `IEEEBoolFromBool(true)` is `TRUE` (asserted) and `ToTTL` of it is
false; `IEEEBoolFromBool(false)` is `FALSE` (negated) and `ToTTL` of it is true. -/
theorem ttl_round_trip_counterexample :
    (IEEEBoolFromBool true).ToTTL = false ∧ (IEEEBoolFromBool false).ToTTL = true ∧
    IEEEBoolFromBool true = .TRUE ∧ IEEEBoolFromBool false = .FALSE := by
  decide

/-- C21 as amended: `IEEEBoolFromBool` maps true to `TRUE` (asserted) and false to `FALSE`
(negated), never to `FLOATING`; it round-trips with `ToBool`, and `ToTTL` of it is the
negation of the boolean. -/
theorem frombool_round_trip (b : Bool) :
    (IEEEBoolFromBool b).ToBool = b ∧ (IEEEBoolFromBool b).ToTTL = !b ∧
    IEEEBoolFromBool b ≠ .FLOATING ∧
    (IEEEBoolFromBool b = .TRUE ↔ b = true) ∧ (IEEEBoolFromBool b = .FALSE ↔ b = false) := by
  cases b <;> decide

set_option maxRecDepth 10000 in
/-- C22 (code defect, evaluated at the failing inputs): with Port B direction 0x02 (NRFD an
output, NDAC an input) `CBM2031Connector.Read` returns NRFD = `FLOATING` and NDAC = `FALSE`;
with direction 0x04 (NRFD an input, NDAC an output) NRFD floats and NDAC is driven.  The
branch commented "NDAC is an input" assigns `out.NRFD`. -/
theorem ndac_input_floats_nrfd :
    ((run (VIA.zero 0) ndacInputOps).portBDir &&& BIT_1 ≠ 0 ∧
      (run (VIA.zero 0) ndacInputOps).portBDir &&& BIT_2 = 0 ∧
      (CBM2031Connector.Read { Via := run (VIA.zero 0) ndacInputOps }).NRFD = .FLOATING ∧
      (CBM2031Connector.Read { Via := run (VIA.zero 0) ndacInputOps }).NDAC = .FALSE) ∧
    ((run (VIA.zero 0) nrfdInputOps).portBDir &&& BIT_1 = 0 ∧
      (run (VIA.zero 0) nrfdInputOps).portBDir &&& BIT_2 ≠ 0 ∧
      (CBM2031Connector.Read { Via := run (VIA.zero 0) nrfdInputOps }).NRFD = .FLOATING ∧
      (CBM2031Connector.Read { Via := run (VIA.zero 0) nrfdInputOps }).NDAC = .TRUE) := by
  decide

/-- C23: with Port B direction bits 1 and 2 outputs, `CBM2031Connector.Read` returns NRFD and
NDAC `TRUE` (asserted) whenever the ATNA output (Port B output bit 0) differs from the
stored CA1 level; when they agree, NRFD is `TRUE` exactly when Port B output bit 1 is 0
(else `FALSE`) and NDAC is `TRUE` exactly when Port B output bit 2 is 0 (else `FALSE`). -/
theorem atna_gate (c : CBM2031Connector) (h1 : c.Via.portBDir &&& BIT_1 ≠ 0)
    (h2 : c.Via.portBDir &&& BIT_2 ≠ 0) :
    (decide (Out c.Via PORT_B &&& BIT_0 ≠ 0) ≠ c.Via.ca1 →
      c.Read.NRFD = .TRUE ∧ c.Read.NDAC = .TRUE) ∧
    (decide (Out c.Via PORT_B &&& BIT_0 ≠ 0) = c.Via.ca1 →
      (c.Read.NRFD = if Out c.Via PORT_B &&& BIT_1 = 0 then .TRUE else .FALSE) ∧
      (c.Read.NDAC = if Out c.Via PORT_B &&& BIT_2 = 0 then .TRUE else .FALSE)) := by
  have e1 : ¬ (c.Via.portBDir &&& BIT_1 = 0) := h1
  have e2 : ¬ (c.Via.portBDir &&& BIT_2 = 0) := h2
  rw [Read_NRFD, Read_NDAC]
  simp only [e1, e2, if_false]
  constructor
  · intro h
    simp only [h, ne_eq, not_false_eq_true, if_true, and_self]
  · intro h
    simp only [h, ne_eq, not_true_eq_false, if_false, and_self]

set_option maxRecDepth 10000 in
/-- C23 at the scenario of the spec: direction 0b111, Port B = 0, CA1 high: NRFD and NDAC are
asserted; with Port B = 0b111 (ATNA high) both follow their bits and are negated; with
Port B = 0b001 NRFD follows its bit and is asserted. -/
theorem atna_gate_witness :
    (CBM2031Connector.Read { Via := run (VIA.zero 0) gateOps }).NRFD = .TRUE ∧
    (CBM2031Connector.Read { Via := run (VIA.zero 0) gateOps }).NDAC = .TRUE ∧
    (CBM2031Connector.Read { Via := run (VIA.zero 0) (gateOps ++ [.write PORT_B 0x07]) }).NRFD
      = .FALSE ∧
    (CBM2031Connector.Read { Via := run (VIA.zero 0) (gateOps ++ [.write PORT_B 0x07]) }).NDAC
      = .FALSE ∧
    (CBM2031Connector.Read { Via := run (VIA.zero 0) (gateOps ++ [.write PORT_B 0x01]) }).NRFD
      = .TRUE :=
  have h := atna_gate { Via := run (VIA.zero 0) gateOps } (by decide) (by decide)
  have g := atna_gate { Via := run (VIA.zero 0) (gateOps ++ [.write PORT_B 0x07]) } (by decide)
    (by decide)
  ⟨(h.1 (by decide)).1, (h.1 (by decide)).2, (g.2 (by decide)).1, (g.2 (by decide)).2,
    by decide⟩

/-- C24: for every VIA state and every bus state whose ATN line is not floating, after
`CBM2031Connector.Write` the stored CA1 level is true exactly when ATN is asserted; every
output-configured Port B bit is unchanged; the input-configured Port B bits 7, 1, 2, 3, 6
equal (ATN asserted), (NRFD negated), (NDAC negated), (EOI negated), (DAV negated); Port A
is `(DIO & ~dirA) | (old Port A & dirA)`; both direction registers are unchanged. -/
theorem drive_write_mapping (c : CBM2031Connector) (i : IEEE488) (hATN : i.ATN ≠ .FLOATING) :
    (c.Write i).Via.ca1 = decide (i.ATN = .TRUE) ∧
    (∀ k, c.Via.portBDir.testBit k = true →
      (c.Write i).Via.portB.testBit k = c.Via.portB.testBit k) ∧
    (c.Via.portBDir.testBit 7 = false →
      (c.Write i).Via.portB.testBit 7 = decide (i.ATN = .TRUE)) ∧
    (c.Via.portBDir.testBit 1 = false →
      (c.Write i).Via.portB.testBit 1 = decide (i.NRFD = .FALSE)) ∧
    (c.Via.portBDir.testBit 2 = false →
      (c.Write i).Via.portB.testBit 2 = decide (i.NDAC = .FALSE)) ∧
    (c.Via.portBDir.testBit 3 = false →
      (c.Write i).Via.portB.testBit 3 = decide (i.EOI = .FALSE)) ∧
    (c.Via.portBDir.testBit 6 = false →
      (c.Write i).Via.portB.testBit 6 = decide (i.DAV = .FALSE)) ∧
    (c.Write i).Via.portA =
      (i.DIO &&& bnot c.Via.portADir) ||| (c.Via.portA &&& c.Via.portADir) ∧
    (c.Write i).Via.portADir = c.Via.portADir ∧
    (c.Write i).Via.portBDir = c.Via.portBDir := by
  obtain ⟨f, a1, a2, b1, b2, hw⟩ := Write_Via c i
  have hca1 := Write_ca1 c i
  have hatn : (!i.ATN.ToTTL) = decide (i.ATN = .TRUE) := by
    cases h : i.ATN <;> simp_all [IEEEBool.ToTTL]
  have httl : ∀ x : IEEEBool, x.ToTTL = decide (x = .FALSE) := by
    intro x; cases x <;> rfl
  have hb : ∀ k, (c.Write i).Via.portB.testBit k =
      ((CBM2031Connector.inputBits i).testBit k && (decide (k < 8) && !c.Via.portBDir.testBit k) ||
        (c.Via.portB.testBit k && c.Via.portBDir.testBit k)) := by
    intro k
    rw [hw]
    simp only [Nat.testBit_or, Nat.testBit_and, testBit_bnot]
  refine ⟨hca1.trans hatn, ?_, ?_, ?_, ?_, ?_, ?_, ?_, ?_, ?_⟩
  · intro k hk
    rw [hb, hk]; simp
  · intro hk
    rw [hb, hk, testBit_inputBits, ← hatn]; simp
  · intro hk
    rw [hb, hk, testBit_inputBits, httl i.NRFD]; simp
  · intro hk
    rw [hb, hk, testBit_inputBits, httl i.NDAC]; simp
  · intro hk
    rw [hb, hk, testBit_inputBits, httl i.EOI]; simp
  · intro hk
    rw [hb, hk, testBit_inputBits, httl i.DAV]; simp
  · rw [hw]
  · rw [hw]
  · rw [hw]

/-- C24 at a concrete input: a reset drive (all inputs) and the bus with ATN asserted and
DIO = 0xA5: CA1 goes high, Port B bit 7 is set and Port A latches 0xA5. -/
theorem drive_write_mapping_witness :
    (driveIdle.Write busATN).Via.ca1 = true ∧
    (driveIdle.Write busATN).Via.portB.testBit 7 = true ∧
    (driveIdle.Write busATN).Via.portA = 0xA5 :=
  have h := drive_write_mapping driveIdle busATN (by decide)
  ⟨h.1, h.2.2.1 (by decide), h.2.2.2.2.2.2.2.1⟩

/-- C25 fails as stated: with A asserting ATN and B idle (both drive DIO = 0x00, presented
inverted as 0xFF), the merged state has DIO = 0xFF but the incoming latch of both ends holds
DIO = 0x00, so neither latch equals `A.Read().Or(B.Read())`. -/
theorem sync_latch_counterexample :
    IEEE488.DIO (hostATN.Read.Or hostIdle.Read) = 0xFF ∧
    IEEE488.DIO (Cable.Sync hostConnector hostConnector hostATN hostIdle).1.In = 0x00 ∧
    (Cable.Sync hostConnector hostConnector hostATN hostIdle).1.In ≠
      hostATN.Read.Or hostIdle.Read ∧
    (Cable.Sync hostConnector hostConnector hostATN hostIdle).2.In ≠
      hostATN.Read.Or hostIdle.Read := by
  decide

/-- C25 as amended: after one `Sync` between two host connectors each end has been written
with `A.Read().Or(B.Read())`: the eight incoming lines of both ends are those of the merged
state, the incoming DIO of both ends is the complement of the merged DIO, and the outgoing
sides are unchanged; when A asserts ATN with every other line floating and B floats every
line, both ends read ATN = `TRUE`, NDAC = `FALSE`, NRFD = `FALSE`. -/
theorem sync_delivers_wired_or (a b : DummyConnector) :
    (Cable.Sync hostConnector hostConnector a b).1 = a.Write (a.Read.Or b.Read) ∧
    (Cable.Sync hostConnector hostConnector a b).2 = b.Write (a.Read.Or b.Read) ∧
    (∀ f ∈ IEEE488.lines,
      f (Cable.Sync hostConnector hostConnector a b).1.In = f (a.Read.Or b.Read) ∧
      f (Cable.Sync hostConnector hostConnector a b).2.In = f (a.Read.Or b.Read)) ∧
    IEEE488.DIO (Cable.Sync hostConnector hostConnector a b).1.In =
      bnot (IEEE488.DIO (a.Read.Or b.Read)) ∧
    IEEE488.DIO (Cable.Sync hostConnector hostConnector a b).2.In =
      bnot (IEEE488.DIO (a.Read.Or b.Read)) ∧
    (Cable.Sync hostConnector hostConnector a b).1.Out = a.Out ∧
    (Cable.Sync hostConnector hostConnector a b).2.Out = b.Out ∧
    ((Cable.Sync hostConnector hostConnector hostATN hostIdle).1.In.ATN = .TRUE ∧
      (Cable.Sync hostConnector hostConnector hostATN hostIdle).1.In.NDAC = .FALSE ∧
      (Cable.Sync hostConnector hostConnector hostATN hostIdle).1.In.NRFD = .FALSE ∧
      (Cable.Sync hostConnector hostConnector hostATN hostIdle).2.In.ATN = .TRUE ∧
      (Cable.Sync hostConnector hostConnector hostATN hostIdle).2.In.NDAC = .FALSE ∧
      (Cable.Sync hostConnector hostConnector hostATN hostIdle).2.In.NRFD = .FALSE) := by
  refine ⟨rfl, rfl, ?_, rfl, rfl, rfl, rfl, by decide⟩
  intro f hf
  simp only [IEEE488.lines, List.mem_cons, List.mem_singleton, List.not_mem_nil, or_false] at hf
  rcases hf with rfl | rfl | rfl | rfl | rfl | rfl | rfl | rfl <;> exact ⟨rfl, rfl⟩

/-- C26: for every host connector whose outgoing DIO is a byte, `Read` presents the
complement of the outgoing DIO, `Write` latches the complement of the bus DIO, and writing
the connector's own `Read` result back leaves the incoming DIO equal to the outgoing DIO and
every incoming line equal to the outgoing line (the whole incoming record equals the
outgoing one). -/
theorem host_dio_round_trip (c : DummyConnector) (h : c.Out.DIO < 256) :
    IEEE488.DIO c.Read = bnot c.Out.DIO ∧
    (∀ i : IEEE488, IEEE488.DIO (c.Write i).In = bnot i.DIO) ∧
    IEEE488.DIO (c.Write c.Read).In = c.Out.DIO ∧
    (∀ f ∈ IEEE488.lines, f (c.Write c.Read).In = f c.Out) ∧
    (c.Write c.Read).In = c.Out ∧
    (c.Write c.Read).Out = c.Out := by
  have hd : IEEE488.DIO (c.Write c.Read).In = c.Out.DIO := bnot_bnot _ h
  refine ⟨rfl, fun _ => rfl, hd, ?_, ?_, rfl⟩
  · intro f hf
    simp only [IEEE488.lines, List.mem_cons, List.mem_singleton, List.not_mem_nil, or_false] at hf
    rcases hf with rfl | rfl | rfl | rfl | rfl | rfl | rfl | rfl <;> rfl
  · simp only [DummyConnector.Write, DummyConnector.Read, bnot_bnot _ h]

/-- C26 at a concrete input: outgoing DIO = 0x48 is presented as 0xB7 and comes back as
0x48. -/
theorem host_dio_round_trip_witness :
    IEEE488.DIO (DummyConnector.Read { hostATN with Out := { hostATN.Out with DIO := 0x48 } })
      = 0xB7 ∧
    (DummyConnector.Write { hostATN with Out := { hostATN.Out with DIO := 0x48 } }
      (DummyConnector.Read { hostATN with Out := { hostATN.Out with DIO := 0x48 } })).In =
      { hostATN.Out with DIO := 0x48 } :=
  have h := host_dio_round_trip { hostATN with Out := { hostATN.Out with DIO := 0x48 } } (by decide)
  ⟨h.1, h.2.2.2.2.1⟩

/-- C27: if none of the 500 acknowledgement polls sees NDAC = `TRUE`, `cmd` returns the error
"remote did not acknowledge ATN", the outgoing ATN is `FALSE`, every other outgoing line is
`FLOATING` and the outgoing DIO is the one before the call (the primary byte was not
driven); and for every run of `cmd` the outgoing ATN is `FALSE` on return. -/
theorem cmd_ack_timeout (obs : Nat → IEEE488) (primary secondary : Nat) (c : DummyConnector)
    (h : ∀ t, t < 500 → (obs t).NDAC ≠ .TRUE) :
    (Monitor.cmd obs primary secondary c).1 = some "remote did not acknowledge ATN" ∧
    (Monitor.cmd obs primary secondary c).2.Out =
      { DAV := .FLOATING, EOI := .FLOATING, NDAC := .FLOATING, NRFD := .FLOATING,
        SRQ := .FLOATING, ATN := .FALSE, REN := .FLOATING, IFC := .FLOATING,
        DIO := c.Out.DIO } ∧
    (∀ (obs1 : Nat → IEEE488) (p s : Nat) (c1 : DummyConnector),
      (Monitor.cmd obs1 p s c1).2.Out.ATN = .FALSE) := by
  have hp : pollLoop (fun i => i.NDAC == .TRUE) obs 500 0 = (false, 0 + 500) := by
    apply pollLoop_timeout
    intro k _ hk
    have := h k (by omega)
    simp [this]
  have hb : cmdBody obs primary secondary c =
      (some "remote did not acknowledge ATN",
        { c.Reset with Out := { c.Reset.Out with ATN := .TRUE } }) := by
    unfold cmdBody
    simp only [hp]
    rfl
  refine ⟨?_, ?_, fun _ _ _ _ => rfl⟩
  · unfold Monitor.cmd; rw [hb]
  · unfold Monitor.cmd; rw [hb]; rfl

set_option maxRecDepth 10000 in
/-- C27 at concrete inputs: against a bus that never asserts NDAC, `cmd(0x48, 0xFF)` times out
with ATN negated and DIO untouched; against a drive that answers every step at once it
returns no error, again with ATN negated. -/
theorem cmd_ack_timeout_witness :
    (Monitor.cmd (fun _ => MakeIEEE488) 0x48 0xff hostIdle).1 =
      some "remote did not acknowledge ATN" ∧
    (Monitor.cmd (fun _ => MakeIEEE488) 0x48 0xff hostIdle).2.Out.ATN = .FALSE ∧
    IEEE488.DIO (Monitor.cmd (fun _ => MakeIEEE488) 0x48 0xff hostIdle).2.Out = 0 ∧
    (Monitor.cmd promptDrive 0x48 0xff hostIdle).1 = none ∧
    (Monitor.cmd promptDrive 0x48 0xff hostIdle).2.Out.ATN = .FALSE :=
  have h := cmd_ack_timeout (fun _ => MakeIEEE488) 0x48 0xff hostIdle
    (fun _ _ => (by decide : MakeIEEE488.NDAC ≠ .TRUE))
  ⟨h.1, h.2.2 _ _ _ _, by rw [h.2.1]; rfl, by decide, rfl⟩

/-- C28: from a state that satisfies the IRQ invariant, the state after `Clock`, after
`CtrlIn` for any line and level, after `In` for any port and byte, after `ReadRegister` of
any register, and after `WriteRegister` of any register other than `INT_ENABLE` satisfies
it again. -/
theorem irq_invariant_preserved (v : VIA) (hv : IRQInv v) :
    IRQInv (Clock v) ∧ (∀ c t, IRQInv (CtrlIn v c t)) ∧ (∀ p e, IRQInv (In v p e)) ∧
    (∀ r, IRQInv (ReadRegister v r).1) ∧
    (∀ r d, r ≠ INT_ENABLE → IRQInv (WriteRegister v r d)) :=
  ⟨IRQInv_Clock v hv, fun c t => IRQInv_CtrlIn v c t hv, fun p e => IRQInv_In v p e hv,
    fun r => IRQInv_ReadRegister v r hv, fun r d hr => IRQInv_WriteRegister v r d hr hv⟩

set_option maxRecDepth 10000 in
/-- C28 at the state of the IRQ aggregation scenario (IFR = 0x82, IE = 0x42). -/
theorem irq_invariant_preserved_witness :
    irqPending.ifr = 0x82 ∧ irqPending.ie = 0x42 ∧ IRQInv irqPending ∧
    IRQInv (Clock irqPending) ∧ IRQInv (ReadRegister irqPending PORT_A).1 ∧
    IRQInv (WriteRegister irqPending INT_FLAGS 0x02) :=
  have h := irq_invariant_preserved irqPending (by decide)
  ⟨by decide, by decide, by decide, h.1, h.2.2.2.1 PORT_A,
    h.2.2.2.2 INT_FLAGS 0x02 (by decide)⟩

end CBM2031
